import Mathlib

/-!
Verification development for the `lichcongtac-admin-api` repository: a
multi-tenant administrative backend (Node/Express + Firebase Admin) exposing a
single `POST /admin` action dispatcher with actions `createUser`, `updateUser`,
`deleteUser` and password-reset aliases.

The repository contains several iterations of the same program:
  * `src/index.js`                — modelled in namespace `IndexJs`
  * `src/unnamed/part_004` (its first document, lines 1-405)
                                  — modelled in namespace `Part004A`
  * `src/unnamed/part_004` (its second document, lines 406-663, the
    `adminHandler` variant with `isTargetSuperadmin`)
                                  — modelled in namespace `Part004B`
  * `src/unnamed/part_003`        — modelled in namespace `Part003`
The remaining variants (part_000/001/002/005, api/admin.js) share the same
shapes; definitions are added for them only where a claim cites them.

Modelling conventions, chosen to mirror the JavaScript faithfully:
  * A JS string-valued field is a `JStr`: `undef` (property absent), `nul`
    (explicit null), or `str s`.  JS truthiness of such a value is
    `JStr.truthy` (`undefined`, `null` and `""` are falsy).  JS `a || b` is
    `JStr.orElse`, `(a || "")` is `JStr.orEmpty`, strict equality `===` is
    decidable equality of `JStr`.
  * Firestore is a `Store`: association lists for `users/{uid}` and
    `departments/{id}`, plus the flat `schedules` collection.  `set(..,
    {merge:true})` is modelled by the handler computing the merged document
    and replacing it.  Server timestamps are a `now : Nat` parameter.
  * Firebase Auth is an external collaborator; each handler takes an
    `AuthOracle` fixing the outcome of the provider calls it may issue
    (`createUser`, `updateUser`, `setCustomUserClaims`, `deleteUser`,
    `getUser(..).email`).  A throwing provider call carries its raw
    code/message and no HTTP status (`Err.status = none`); the Express route
    renders such an error as 500 (`e.status || 500`).
  * Handlers are state-passing: they return the Firestore state as mutated so
    far together with the thrown error or the result, so that writes performed
    before a later failure persist, exactly as in the JS.
-/

/-- JS `String.prototype.trim()`: drop whitespace from both ends (char-list
implementation so that concrete instances reduce in the kernel). -/
def jsTrim (s : String) : String :=
  ⟨((s.data.dropWhile Char.isWhitespace).reverse.dropWhile Char.isWhitespace).reverse⟩

/-- JS `String.prototype.toLowerCase()` (char-list implementation). -/
def jsToLower (s : String) : String :=
  ⟨s.data.map Char.toLower⟩

/-- Does the haystack start with the needle? -/
def listStartsWith : List Char → List Char → Bool
  | _, [] => true
  | [], _ :: _ => false
  | a :: as, b :: bs => a == b && listStartsWith as bs

/-- Does the needle occur somewhere in the haystack? -/
def listContainsSeq : List Char → List Char → Bool
  | [], needle => needle.isEmpty
  | a :: rest, needle => listStartsWith (a :: rest) needle || listContainsSeq rest needle

/-- JS `haystack.includes(needle)` on strings. -/
def strIncludes (h n : String) : Bool :=
  listContainsSeq h.data n.data

/-- Split a char list at every occurrence of the separator. -/
def splitCharAux (sep : Char) : List Char → List (List Char)
  | [] => [[]]
  | c :: rest =>
    match splitCharAux sep rest with
    | [] => [[]]
    | g :: gs => if c == sep then [] :: g :: gs else (c :: g) :: gs

/-- JS `s.split(",")`. -/
def jsSplitComma (s : String) : List String :=
  (splitCharAux ',' s.data).map (fun l => ⟨l⟩)

/-- A JavaScript string-valued field: absent property, explicit `null`, or a
string. -/
inductive JStr where
  | undef
  | nul
  | str (s : String)
deriving DecidableEq, Repr

namespace JStr

/-- JS truthiness for a string-valued field: `undefined`, `null` and `""` are
falsy. -/
def truthy : JStr → Bool
  | .str s => !(s == "")
  | _ => false

/-- Whether the property is present at all (`v !== undefined`). -/
def isDefined : JStr → Bool
  | .undef => false
  | _ => true

/-- JS `a || b` restricted to string-valued fields. -/
def orElse (a b : JStr) : JStr :=
  if a.truthy then a else b

/-- JS `(a || "")`: the string content, or `""` for a falsy value. -/
def orEmpty : JStr → String
  | .str s => s
  | _ => ""

/-- JS `list.includes(v)` for a list of strings: false for non-strings. -/
def isOneOf (a : JStr) (l : List String) : Bool :=
  match a with
  | .str s => l.contains s
  | _ => false

end JStr

/-- A `users/{uid}` Firestore document. -/
structure UserProfile where
  uid : JStr
  email : JStr
  fullName : JStr
  role : JStr
  orgId : JStr
  departmentId : JStr
  createdAt : Option Nat
  updatedAt : Option Nat
deriving DecidableEq, Repr

/-- A `users/{uid}` document with no fields set (the base for a
`set(.., {merge:true})` on a missing document). -/
def emptyProfile : UserProfile :=
  ⟨.undef, .undef, .undef, .undef, .undef, .undef, none, none⟩

/-- A `departments/{id}` document (`organizationId` is the legacy field name
read as a fallback by `src/index.js`). -/
structure Department where
  orgId : JStr
  organizationId : JStr
deriving DecidableEq, Repr

/-- A `schedules` document; only its identity and the `createdBy` foreign key
matter to this program. -/
structure Schedule where
  id : Nat
  createdBy : String
deriving DecidableEq, Repr

/-- The Firestore state. -/
structure Store where
  users : List (String × UserProfile)
  departments : List (String × Department)
  schedules : List Schedule
deriving DecidableEq, Repr

def Store.getUser (s : Store) (uid : String) : Option UserProfile :=
  s.users.lookup uid

def Store.getDept (s : Store) (depId : String) : Option Department :=
  s.departments.lookup depId

def Store.setUser (s : Store) (uid : String) (p : UserProfile) : Store :=
  { s with users := (uid, p) :: s.users.filter (fun kv => !(kv.1 == uid)) }

def Store.removeUser (s : Store) (uid : String) : Store :=
  { s with users := s.users.filter (fun kv => !(kv.1 == uid)) }

/-- A thrown JS error: `status` is the `err.status` property when one was set
(`none` for raw provider/store errors); the route renders `status.getD 500`. -/
structure Err where
  status : Option Nat
  message : String
deriving DecidableEq, Repr

/-- An HTTP response produced by the `res.status(..).json(..)` style variants:
status code plus the error string or result tag. -/
structure Resp where
  status : Nat
  tag : String
deriving DecidableEq, Repr

/-- Outcome of a `admin.auth().createUser(..)` call. -/
inductive AuthCreate where
  | ok (uid : String)
  | err (code : String)
deriving DecidableEq, Repr

/-- Fixed outcomes of the identity-provider calls a single request may issue.
`none` means the call succeeds; `some code` means it throws with that
code/message.  `userEmail` is the `(u.email || "")` a `getUser` lookup for the
target yields (`""` when the lookup itself fails). -/
structure AuthOracle where
  createResult : AuthCreate
  updateResult : Option String
  claimsResult : Option String
  deleteResult : Option String
  userEmail : String
deriving DecidableEq, Repr

instance exceptDecEq {ε α : Type} [DecidableEq ε] [DecidableEq α] :
    DecidableEq (Except ε α) := fun x y =>
  match x, y with
  | .ok a, .ok b =>
    if h : a = b then .isTrue (congrArg Except.ok h)
    else .isFalse (fun hh => h (Except.ok.inj hh))
  | .error a, .error b =>
    if h : a = b then .isTrue (congrArg Except.error h)
    else .isFalse (fun hh => h (Except.error.inj hh))
  | .ok _, .error _ => .isFalse (fun hh => Except.noConfusion hh)
  | .error _, .ok _ => .isFalse (fun hh => Except.noConfusion hh)

/-- Sequencing helper for the throw-style handlers: propagate a thrown error
with the state as it stood, otherwise continue. -/
def step {α β : Type} (s : Store) (r : Except Err α) (k : α → Store × Except Err β) :
    Store × Except Err β :=
  match r with
  | .error e => (s, .error e)
  | .ok a => k a

/-- The `SUPER_ADMINS` env parsing shared by the variants:
`raw.split(",").map(s => s.trim().toLowerCase()).filter(Boolean)`. -/
def parseSuperAdmins (raw : String) : List String :=
  ((jsSplitComma raw).map (fun x => jsToLower (jsTrim x))).filter (fun x => !(x == ""))

/-- The cascade batching loop shared by `src/index.js` and the first part_004
variant: fill a batch up to 400 deletes, push its commit, start a new batch,
and push the final nonempty batch. -/
def batchLoop : List Schedule → List Schedule → Nat → List (List Schedule)
  | [], cur, count => if count > 0 then [cur.reverse] else []
  | d :: rest, cur, count =>
    if count + 1 = 400 then (d :: cur).reverse :: batchLoop rest [] 0
    else batchLoop rest (d :: cur) (count + 1)

/-- The batches the 400-bounded cascade loop issues for a query result. -/
def cascadeBatches (docs : List Schedule) : List (List Schedule) :=
  batchLoop docs [] 0

/-- Effect of committing one delete batch on the `schedules` collection. -/
def commitBatch (schedules : List Schedule) (b : List Schedule) : List Schedule :=
  schedules.filter (fun x => !(b.any (fun y => y.id == x.id)))

/-- The full 400-bounded cascade: query `createdBy == uid`, batch, commit all
batches. -/
def applyCascade (schedules : List Schedule) (uid : String) : List Schedule :=
  let matched := schedules.filter (fun x => x.createdBy == uid)
  (cascadeBatches matched).foldl commitBatch schedules

/-- The single unbounded batch issued by the part_003 / part_004 adminHandler
cascade (`qs.forEach(d => batch.delete(d.ref)); await batch.commit()`). -/
def cascadeSingleBatch (schedules : List Schedule) (uid : String) : List Schedule :=
  schedules.filter (fun x => x.createdBy == uid)

namespace IndexJs

/-- The caller as produced by `getActor` in `src/index.js`:
`{ uid, role, orgId }` read from `users/{uid}`. -/
structure Actor where
  uid : String
  role : JStr
  orgId : JStr
deriving DecidableEq, Repr

/-- `getActor` of `src/index.js`: requires an existing `users/{uid}` document
with a truthy `role`. -/
def getActor (s : Store) (uid : String) : Except Err Actor :=
  match s.getUser uid with
  | none => .error ⟨some 403, "actor-not-found"⟩
  | some p =>
    if p.role.truthy then .ok ⟨uid, p.role, p.orgId⟩
    else .error ⟨some 403, "no-role"⟩

/-- `assertOrgScope` of `src/index.js`: superadmin passes; anyone else needs a
set `orgId` strictly equal to the target org. -/
def assertOrgScope (actor : Actor) (targetOrgId : JStr) : Except Err Unit :=
  if actor.role = JStr.str "superadmin" then .ok ()
  else if actor.orgId.truthy = false ∨ actor.orgId ≠ targetOrgId then
    .error ⟨some 403, "permission-denied"⟩
  else .ok ()

/-- `requireString` of `src/index.js`: falsy or non-string → 400, otherwise
the trimmed string. -/
def requireString (v : JStr) (name : String) : Except Err String :=
  match v with
  | JStr.str s => if s = "" then .error ⟨some 400, "invalid-" ++ name⟩ else .ok (jsTrim s)
  | _ => .error ⟨some 400, "invalid-" ++ name⟩

/-- `assertDepartmentBelongsToOrg` of `src/index.js`: a falsy id is optional;
a missing department or a set, different `orgId`/`organizationId` → 400. -/
def assertDepartmentBelongsToOrg (s : Store) (departmentId : JStr) (orgId : JStr) :
    Except Err Unit :=
  if departmentId.truthy = false then .ok ()
  else
    match s.getDept departmentId.orEmpty with
    | none => .error ⟨some 400, "department-not-found"⟩
    | some dep =>
      let depOrg := dep.orgId.orElse dep.organizationId
      if depOrg.truthy = true ∧ depOrg ≠ orgId then
        .error ⟨some 400, "department-org-mismatch"⟩
      else .ok ()

/-- Request body `data` for `createUser`. -/
structure CreateData where
  email : JStr
  password : JStr
  fullName : JStr
  role : JStr
  orgId : JStr
  departmentId : JStr
deriving DecidableEq, Repr

/-- Request body `data` for `updateUser`. -/
structure UpdateData where
  uid : JStr
  email : JStr
  fullName : JStr
  role : JStr
  orgId : JStr
  departmentId : JStr
  password : JStr
deriving DecidableEq, Repr

/-- Request body `data` for `deleteUser` (`cascade` is the truthiness of
`data.cascade`). -/
structure DeleteData where
  uid : JStr
  cascade : Bool
deriving DecidableEq, Repr

/-- `handleCreateUser` of `src/index.js`. -/
def handleCreateUser (s : Store) (actor : Actor) (oracle : AuthOracle) (now : Nat)
    (d : CreateData) : Store × Except Err String :=
  step s (requireString d.email "email") fun email =>
  step s (requireString d.password "password") fun _password =>
  step s (requireString d.fullName "fullName") fun fullName =>
  step s (requireString d.role "role") fun role =>
  step s (requireString d.orgId "orgId") fun orgId =>
  let departmentId : JStr :=
    if d.departmentId.truthy then JStr.str (jsTrim d.departmentId.orEmpty) else JStr.nul
  step s (assertOrgScope actor (JStr.str orgId)) fun _ =>
  if role = "superadmin" ∧ actor.role ≠ JStr.str "superadmin" then
    (s, .error ⟨some 403, "cannot-create-superadmin"⟩)
  else
    step s (assertDepartmentBelongsToOrg s departmentId (JStr.str orgId)) fun _ =>
    match oracle.createResult with
    | .err code => (s, .error ⟨none, code⟩)
    | .ok uid =>
      let s1 := s.setUser uid
        { uid := .str uid, email := .str email, fullName := .str fullName,
          role := .str role, orgId := .str orgId,
          departmentId := if departmentId.truthy then departmentId else JStr.nul,
          createdAt := some now, updatedAt := none }
      match oracle.claimsResult with
      | some code => (s1, .error ⟨none, code⟩)
      | none => (s1, .ok uid)

/-- `handleUpdateUser` of `src/index.js`. -/
def handleUpdateUser (s : Store) (actor : Actor) (oracle : AuthOracle)
    (d : UpdateData) : Store × Except Err Unit :=
  step s (requireString d.uid "uid") fun uid =>
  match s.getUser uid with
  | none => (s, .error ⟨some 404, "user-not-found"⟩)
  | some cur =>
  step s (assertOrgScope actor cur.orgId) fun _ =>
  let orgCheck : Except Err Unit :=
    if d.orgId.isDefined = false then .ok ()
    else if actor.role ≠ JStr.str "superadmin" then
      .error ⟨some 403, "cannot-change-org-as-admin"⟩
    else (requireString d.orgId "orgId").map (fun _ => ())
  step s orgCheck fun _ =>
  let depCheck : Except Err Unit :=
    if d.departmentId.isDefined = false then .ok ()
    else
      let checkDep :=
        if d.departmentId.truthy then JStr.str (jsTrim d.departmentId.orEmpty) else JStr.nul
      let validateOrg := if d.orgId.isDefined then d.orgId else cur.orgId
      assertDepartmentBelongsToOrg s checkDep validateOrg
  step s depCheck fun _ =>
  let anyAuth := d.email.truthy || d.fullName.truthy || d.password.truthy
  match (if anyAuth then oracle.updateResult else none) with
  | some code => (s, .error ⟨none, code⟩)
  | none =>
  let anyClaims := d.role.isDefined || d.orgId.isDefined
  match (if anyClaims then oracle.claimsResult else none) with
  | some code => (s, .error ⟨none, code⟩)
  | none =>
  let p1 := if d.email.isDefined then { cur with email := d.email } else cur
  let p2 := if d.fullName.isDefined then { p1 with fullName := d.fullName } else p1
  let p3 := if d.role.isDefined then { p2 with role := d.role } else p2
  let p4 :=
    if d.departmentId.isDefined then
      { p3 with departmentId := if d.departmentId.truthy then d.departmentId else JStr.nul }
    else p3
  let p5 := if d.orgId.isDefined then { p4 with orgId := d.orgId } else p4
  let changed := d.email.isDefined || d.fullName.isDefined || d.role.isDefined ||
    d.departmentId.isDefined || d.orgId.isDefined
  ((if changed then s.setUser uid p5 else s), .ok ())

/-- `handleDeleteUser` of `src/index.js`: scope check on the stored profile
(404 without one), Firestore delete, optional 400-batched cascade, then the
unguarded provider delete. -/
def handleDeleteUser (s : Store) (actor : Actor) (oracle : AuthOracle)
    (d : DeleteData) : Store × Except Err Unit :=
  step s (requireString d.uid "uid") fun uid =>
  match s.getUser uid with
  | none => (s, .error ⟨some 404, "user-not-found"⟩)
  | some target =>
  step s (assertOrgScope actor target.orgId) fun _ =>
  let s1 := s.removeUser uid
  let s2 := if d.cascade then { s1 with schedules := applyCascade s1.schedules uid } else s1
  match oracle.deleteResult with
  | some code => (s2, .error ⟨none, code⟩)
  | none => (s2, .ok ())

end IndexJs

/-- A verified ID token as the handlers see it: `decoded.uid`,
`decoded.email`, and the denormalized custom claims `decoded.role` /
`decoded.orgId` when present. -/
structure Decoded where
  uid : String
  email : JStr
  role : JStr
  orgId : JStr
deriving DecidableEq, Repr

namespace Part004A

/-- The caller `assertAdminFromIdToken` attaches: role is one of
`admin`/`superadmin` by construction. -/
structure Caller where
  uid : String
  email : String
  role : String
  orgId : JStr
deriving DecidableEq, Repr

/-- The `roleFS` read of `assertAdminFromIdToken`:
`snap.exists ? (snap.get("role") || null) : null`. -/
def roleFS (s : Store) (uid : String) : JStr :=
  match s.getUser uid with
  | some p => p.role.orElse JStr.nul
  | none => JStr.nul

/-- The `orgIdFS` read of `assertAdminFromIdToken`:
`snap.exists ? (snap.get("orgId") || null) : null`. -/
def orgIdFS (s : Store) (uid : String) : JStr :=
  match s.getUser uid with
  | some p => p.orgId.orElse JStr.nul
  | none => JStr.nul

/-- `assertAdminFromIdToken` of the first part_004 variant: role is the stored
profile role, else the custom-claim role, else `superadmin` for a bootstrap
email; deny unless the result is `admin` or `superadmin`. -/
def assertAdminFromIdToken (s : Store) (supers : List String) (dec : Decoded) :
    Except Err Caller :=
  let email := jsToLower dec.email.orEmpty
  let roleClaim := if dec.role.truthy then dec.role else JStr.nul
  let orgClaim := if dec.orgId.truthy then dec.orgId else JStr.nul
  let isBootstrapSuper := !(email == "") && supers.contains email
  let role := (roleFS s dec.uid).orElse (roleClaim.orElse
    (if isBootstrapSuper then JStr.str "superadmin" else JStr.nul))
  let orgId := (orgIdFS s dec.uid).orElse (orgClaim.orElse JStr.nul)
  if role.isOneOf ["admin", "superadmin"] then
    .ok ⟨dec.uid, email, role.orEmpty, orgId⟩
  else .error ⟨some 403, "permission-denied"⟩

/-- `assertDepartmentBelongsToOrg` of part_004: strict `data.orgId !== orgId`
comparison, no legacy-field fallback. -/
def assertDepartmentBelongsToOrg (s : Store) (departmentId orgId : JStr) :
    Except Err Unit :=
  if departmentId.truthy = false then .ok ()
  else
    match s.getDept departmentId.orEmpty with
    | none => .error ⟨some 400, "department-not-found"⟩
    | some dep =>
      if dep.orgId ≠ orgId then .error ⟨some 400, "department-org-mismatch"⟩
      else .ok ()

/-- The provider-error mapping of part_004's create try/catch. -/
def mapCreateError (code : String) : Err :=
  if code = "auth/email-already-exists" then ⟨some 409, "email-already-exists"⟩
  else if code = "auth/invalid-password" then ⟨some 400, "invalid-password"⟩
  else ⟨some 500, "internal"⟩

/-- `handleCreateUser` of the first part_004 variant.  Note that the org
guard `caller.orgId && orgId !== caller.orgId` only applies when the caller
has a truthy orgId, and that the department failure is swallowed unless
`departmentId` is truthy. -/
def handleCreateUser (s : Store) (caller : Caller) (oracle : AuthOracle) (now : Nat)
    (d : IndexJs.CreateData) : Store × Except Err String :=
  if !(d.email.truthy && d.password.truthy && d.fullName.truthy &&
       d.role.truthy && d.orgId.truthy) then
    (s, .error ⟨some 400, "invalid-argument"⟩)
  else if caller.role = "admin" ∧ d.role = JStr.str "superadmin" then
    (s, .error ⟨some 403, "permission-denied"⟩)
  else if caller.role = "admin" ∧ caller.orgId.truthy = true ∧ d.orgId ≠ caller.orgId then
    (s, .error ⟨some 403, "permission-denied"⟩)
  else
    let depCheck : Except Err Unit :=
      match assertDepartmentBelongsToOrg s d.departmentId d.orgId with
      | .error e => if d.departmentId.truthy then .error e else .ok ()
      | .ok _ => .ok ()
    step s depCheck fun _ =>
    match oracle.createResult with
    | .err code => (s, .error (mapCreateError code))
    | .ok uid =>
      let s1 := s.setUser uid
        { uid := .str uid, email := d.email, fullName := d.fullName,
          role := d.role, orgId := d.orgId,
          departmentId := if d.departmentId.truthy then d.departmentId else JStr.nul,
          createdAt := some now, updatedAt := some now }
      match oracle.claimsResult with
      | some code => (s1, .error (mapCreateError code))
      | none => (s1, .ok uid)

/-- `handleUpdateUser` of the first part_004 variant.  The admin guard checks
the target org (only when both orgs are truthy), a requested superadmin role,
and an org transfer; there is no check that the target itself is a
superadmin. -/
def handleUpdateUser (s : Store) (caller : Caller) (oracle : AuthOracle) (now : Nat)
    (d : IndexJs.UpdateData) : Store × Except Err Unit :=
  if !d.uid.truthy then (s, .error ⟨some 400, "invalid-argument"⟩)
  else
    let uid := d.uid.orEmpty
    match s.getUser uid with
    | none => (s, .error ⟨some 404, "user-not-found"⟩)
    | some target =>
    if caller.role = "admin" ∧ target.orgId.truthy = true ∧ caller.orgId.truthy = true ∧
        target.orgId ≠ caller.orgId then
      (s, .error ⟨some 403, "permission-denied"⟩)
    else if caller.role = "admin" ∧ d.role = JStr.str "superadmin" then
      (s, .error ⟨some 403, "permission-denied"⟩)
    else if caller.role = "admin" ∧ d.orgId.truthy = true ∧ d.orgId ≠ caller.orgId then
      (s, .error ⟨some 403, "permission-denied"⟩)
    else
      let effectiveOrg := d.orgId.orElse (target.orgId.orElse (caller.orgId.orElse JStr.nul))
      let depCheck : Except Err Unit :=
        match assertDepartmentBelongsToOrg s d.departmentId effectiveOrg with
        | .error e => if d.departmentId.truthy then .error e else .ok ()
        | .ok _ => .ok ()
      step s depCheck fun _ =>
      let anyAuth := d.email.truthy || d.fullName.truthy || d.password.truthy
      match (if anyAuth then oracle.updateResult else none) with
      | some code => (s, .error ⟨none, code⟩)
      | none =>
      let anyClaims := d.role.truthy || d.orgId.truthy
      match (if anyClaims then oracle.claimsResult else none) with
      | some code => (s, .error ⟨none, code⟩)
      | none =>
      let p0 := { target with updatedAt := some now }
      let p1 := if d.email.isDefined then { p0 with email := d.email } else p0
      let p2 := if d.fullName.isDefined then { p1 with fullName := d.fullName } else p1
      let p3 := if d.role.isDefined then { p2 with role := d.role } else p2
      let p4 := if d.orgId.isDefined then { p3 with orgId := d.orgId } else p3
      let p5 :=
        if d.departmentId.isDefined then
          { p4 with departmentId := if d.departmentId.truthy then d.departmentId else JStr.nul }
        else p4
      (s.setUser uid p5, .ok ())

/-- `handleDeleteUser` of the first part_004 variant: 404 without a stored
profile; the admin guard checks org (only when both truthy) and a target whose
stored role is `superadmin`; then doc delete, 400-batched cascade, and the
unguarded provider delete. -/
def handleDeleteUser (s : Store) (caller : Caller) (oracle : AuthOracle)
    (d : IndexJs.DeleteData) : Store × Except Err Unit :=
  if !d.uid.truthy then (s, .error ⟨some 400, "invalid-argument"⟩)
  else
    let uid := d.uid.orEmpty
    match s.getUser uid with
    | none => (s, .error ⟨some 404, "user-not-found"⟩)
    | some target =>
    if caller.role = "admin" ∧ caller.orgId.truthy = true ∧ target.orgId.truthy = true ∧
        caller.orgId ≠ target.orgId then
      (s, .error ⟨some 403, "permission-denied"⟩)
    else if caller.role = "admin" ∧ target.role = JStr.str "superadmin" then
      (s, .error ⟨some 403, "permission-denied"⟩)
    else
      let s1 := s.removeUser uid
      let s2 :=
        if d.cascade then { s1 with schedules := applyCascade s1.schedules uid } else s1
      match oracle.deleteResult with
      | some code => (s2, .error ⟨none, code⟩)
      | none => (s2, .ok ())

end Part004A

/-- The normalized caller (`req.me`) the express-middleware variants attach:
profile orgId, lowercased email, effective role, and the superadmin flag. -/
structure Me where
  orgId : JStr
  email : String
  role : String
  isSuper : Bool
deriving DecidableEq, Repr

/-- The request `data` bag for the express-middleware variants (one object in
JS, so one structure serving every action). -/
structure ReqData where
  uid : JStr
  email : JStr
  password : JStr
  newPassword : JStr
  fullName : JStr
  role : JStr
  orgId : JStr
  departmentId : JStr
  cascade : Bool
deriving DecidableEq, Repr

/-- The password-reset action aliases. -/
def resetAliases : List String :=
  ["setPassword", "resetPassword", "adminResetPassword"]

namespace Part003

/-- `requireAdmin` of part_003: the bootstrap email list takes precedence over
the stored profile role (`roleEffective = isSuperByEmail ? "superadmin" :
roleDb`); there is no custom-claim fallback. -/
def requireAdmin (s : Store) (supers : List String) (dec : Decoded) :
    Except Resp Me :=
  let email := jsToLower dec.email.orEmpty
  let isSuperByEmail := supers.contains email
  let profOrg : JStr :=
    match s.getUser dec.uid with
    | some p => p.orgId
    | none => JStr.undef
  let roleDb :=
    jsToLower (match s.getUser dec.uid with
      | some p => p.role.orEmpty
      | none => "")
  let roleEffective := if isSuperByEmail then "superadmin" else roleDb
  if roleEffective = "admin" ∨ roleEffective = "superadmin" then
    .ok ⟨profOrg, email, roleEffective, roleEffective == "superadmin"⟩
  else .error ⟨403, "forbidden"⟩

/-- `adminHandler` of part_003: dispatch on the action string. -/
def adminHandler (s : Store) (me : Me) (oracle : AuthOracle) (now : Nat)
    (action : String) (d : ReqData) : Store × Resp :=
  if action = "createUser" then
    if !(d.email.truthy && d.password.truthy && d.fullName.truthy &&
         d.role.truthy && d.orgId.truthy) then
      (s, ⟨400, "missing fields"⟩)
    else if me.isSuper = false ∧ (me.orgId.truthy = false ∨ d.orgId ≠ me.orgId) then
      (s, ⟨403, "admin can only create in own org"⟩)
    else
      match oracle.createResult with
      | .err _ => (s, ⟨500, "server error"⟩)
      | .ok uid =>
        let payload : UserProfile :=
          { uid := .str uid, email := d.email, fullName := d.fullName,
            role := .str (jsToLower (d.role.orElse (JStr.str "user")).orEmpty),
            orgId := d.orgId,
            departmentId := if d.departmentId.truthy then d.departmentId else JStr.nul,
            createdAt := some now, updatedAt := none }
        (s.setUser uid payload, ⟨200, uid⟩)
  else if action = "updateUser" then
    if !d.uid.truthy then (s, ⟨400, "missing uid"⟩)
    else if me.isSuper = false ∧ d.orgId.truthy = true ∧
        (me.orgId.truthy = false ∨ d.orgId ≠ me.orgId) then
      (s, ⟨403, "admin can only move within own org"⟩)
    else
      let uid := d.uid.orEmpty
      let base := (s.getUser uid).getD emptyProfile
      let p1 := if d.email.isDefined then { base with email := d.email } else base
      let p2 := if d.fullName.isDefined then { p1 with fullName := d.fullName } else p1
      let p3 := if d.role.isDefined then { p2 with role := d.role } else p2
      let p4 := if d.orgId.isDefined then { p3 with orgId := d.orgId } else p3
      let p5 :=
        if d.departmentId.isDefined then { p4 with departmentId := d.departmentId } else p4
      (s.setUser uid p5, ⟨200, "ok"⟩)
  else if resetAliases.contains action then
    let pwd := d.password.orElse d.newPassword
    if !(d.uid.truthy && pwd.truthy) then (s, ⟨400, "missing uid/password"⟩)
    else
      let uid := d.uid.orEmpty
      let doReset : Store × Resp :=
        match oracle.updateResult with
        | none => (s, ⟨200, "ok"⟩)
        | some code =>
          if strIncludes code "auth/user-not-found" then (s, ⟨404, "auth user not found"⟩)
          else (s, ⟨500, "updateUser failed"⟩)
      if me.isSuper = false then
        match s.getUser uid with
        | some target =>
          if me.orgId.truthy = false ∨ target.orgId ≠ me.orgId then
            (s, ⟨403, "admin can only reset password within own org"⟩)
          else doReset
        | none => (s, ⟨403, "only superadmin can reset users without profile"⟩)
      else doReset
  else if action = "deleteUser" then
    if !d.uid.truthy then (s, ⟨400, "missing uid"⟩)
    else
      let uid := d.uid.orEmpty
      let s1 := s.removeUser uid
      let s2 :=
        if d.cascade then
          { s1 with schedules := commitBatch s1.schedules (cascadeSingleBatch s1.schedules uid) }
        else s1
      (s2, ⟨200, "ok"⟩)
  else (s, ⟨400, "unknown action"⟩)

end Part003

namespace Part004B

/-- `isSuperEmail` of the part_004 adminHandler variant. -/
def isSuperEmail (supers : List String) (email : JStr) : Bool :=
  supers.contains (jsToLower email.orEmpty)

/-- `isTargetSuperadmin` of the part_004 adminHandler variant: stored role
lowercased equals `superadmin`, or the target's provider email is in the
bootstrap list.  `authEmail` is the `(u.email || "")` the provider lookup
yields (`""` when it throws). -/
def isTargetSuperadmin (s : Store) (supers : List String) (uid : String)
    (authEmail : String) : Bool :=
  let email := jsToLower authEmail
  let role :=
    jsToLower (match s.getUser uid with
      | some p => p.role.orEmpty
      | none => "")
  (role == "superadmin") || isSuperEmail supers (JStr.str email)

/-- `requireAdmin` of the part_004 adminHandler variant: superadmin by stored
role or bootstrap email, admin additionally by stored role `admin`. -/
def requireAdmin (s : Store) (supers : List String) (dec : Decoded) :
    Except Resp Me :=
  let role :=
    jsToLower (match s.getUser dec.uid with
      | some p => p.role.orEmpty
      | none => "")
  let email := jsToLower dec.email.orEmpty
  let isSuper := (role == "superadmin") || isSuperEmail supers (JStr.str email)
  let isAdmin := isSuper || (role == "admin")
  if isAdmin then
    .ok ⟨(match s.getUser dec.uid with
          | some p => p.orgId
          | none => JStr.undef), email, role, isSuper⟩
  else .error ⟨403, "forbidden"⟩

/-- `adminHandler` of the part_004 adminHandler variant. -/
def adminHandler (s : Store) (supers : List String) (me : Me) (oracle : AuthOracle)
    (now : Nat) (action : String) (d : ReqData) : Store × Resp :=
  if action = "createUser" then
    if !(d.email.truthy && d.password.truthy && d.fullName.truthy &&
         d.role.truthy && d.orgId.truthy) then
      (s, ⟨400, "missing fields"⟩)
    else if me.isSuper = false ∧ (me.orgId.truthy = false ∨ d.orgId ≠ me.orgId) then
      (s, ⟨403, "admin can only create in own org"⟩)
    else if me.isSuper = false ∧
        (jsToLower d.role.orEmpty = "superadmin" ∨ isSuperEmail supers d.email = true) then
      (s, ⟨403, "admin cannot create superadmin"⟩)
    else
      match oracle.createResult with
      | .err _ => (s, ⟨500, "server error"⟩)
      | .ok uid =>
        let payload : UserProfile :=
          { uid := .str uid, email := .str (jsToLower d.email.orEmpty),
            fullName := d.fullName,
            role := .str (jsToLower (d.role.orElse (JStr.str "user")).orEmpty),
            orgId := d.orgId,
            departmentId := if d.departmentId.truthy then d.departmentId else JStr.nul,
            createdAt := some now, updatedAt := none }
        (s.setUser uid payload, ⟨200, uid⟩)
  else if action = "updateUser" then
    if !d.uid.truthy then (s, ⟨400, "missing uid"⟩)
    else
      let uid := d.uid.orEmpty
      if me.isSuper = false ∧ isTargetSuperadmin s supers uid oracle.userEmail = true then
        (s, ⟨403, "cannot modify superadmin"⟩)
      else if me.isSuper = false ∧ d.role.truthy = true ∧
          jsToLower d.role.orEmpty = "superadmin" then
        (s, ⟨403, "cannot promote to superadmin"⟩)
      else if me.isSuper = false ∧ d.email.truthy = true ∧
          isSuperEmail supers d.email = true then
        (s, ⟨403, "cannot set email of superadmin"⟩)
      else if me.isSuper = false ∧ d.orgId.truthy = true ∧
          (me.orgId.truthy = false ∨ d.orgId ≠ me.orgId) then
        (s, ⟨403, "admin can only move within own org"⟩)
      else
        let base := (s.getUser uid).getD emptyProfile
        let p1 := if d.email.isDefined then { base with email := d.email } else base
        let p2 := if d.fullName.isDefined then { p1 with fullName := d.fullName } else p1
        let p3 := if d.role.isDefined then { p2 with role := d.role } else p2
        let p4 := if d.orgId.isDefined then { p3 with orgId := d.orgId } else p3
        let p5 :=
          if d.departmentId.isDefined then { p4 with departmentId := d.departmentId } else p4
        (s.setUser uid p5, ⟨200, "ok"⟩)
  else if resetAliases.contains action then
    let pwd := d.password.orElse d.newPassword
    if !(d.uid.truthy && pwd.truthy) then (s, ⟨400, "missing uid/password"⟩)
    else
      let uid := d.uid.orEmpty
      if me.isSuper = false ∧ isTargetSuperadmin s supers uid oracle.userEmail = true then
        (s, ⟨403, "cannot change password of superadmin"⟩)
      else
        let doReset : Store × Resp :=
          match oracle.updateResult with
          | none => (s, ⟨200, "ok"⟩)
          | some msg =>
            if strIncludes msg "auth/user-not-found" then (s, ⟨404, "auth user not found"⟩)
            else (s, ⟨500, "updateUser failed"⟩)
        if me.isSuper = false then
          match s.getUser uid with
          | none => (s, ⟨403, "only superadmin can reset users without profile"⟩)
          | some target =>
            if me.orgId.truthy = false ∨ target.orgId ≠ me.orgId then
              (s, ⟨403, "admin can only reset password within own org"⟩)
            else doReset
        else doReset
  else if action = "deleteUser" then
    if !d.uid.truthy then (s, ⟨400, "missing uid"⟩)
    else
      let uid := d.uid.orEmpty
      if me.isSuper = false ∧ isTargetSuperadmin s supers uid oracle.userEmail = true then
        (s, ⟨403, "cannot delete superadmin"⟩)
      else
        let s1 := s.removeUser uid
        let s2 :=
          if d.cascade then
            { s1 with schedules := commitBatch s1.schedules (cascadeSingleBatch s1.schedules uid) }
          else s1
        (s2, ⟨200, "ok"⟩)
  else (s, ⟨400, "unknown action"⟩)

end Part004B

/-! Concrete fixtures used by the witnesses and counterexamples. -/

/-- A concrete family of schedule documents all created by the same user,
used to instantiate the cascade scenarios. -/
def mkSchedules : Nat → String → List Schedule
  | 0, _ => []
  | n + 1, u => ⟨n, u⟩ :: mkSchedules n u

/-- A profile stored in `org2`. -/
def prof2 : UserProfile := { emptyProfile with orgId := JStr.str "org2" }

/-- A store holding only the `org2` user `u2`. -/
def store2 : Store := ⟨[("u2", prof2)], [], []⟩

/-- A plain admin of `org1` (as `getActor` would return it). -/
def adminOrg1 : IndexJs.Actor := ⟨"a1", JStr.str "admin", JStr.str "org1"⟩

/-- An oracle on which every provider call succeeds. -/
def okOracle : AuthOracle := ⟨.ok "u9", none, none, none, ""⟩

/-- An update request asking only to change `u2`'s fullName. -/
def updFullName : IndexJs.UpdateData :=
  ⟨JStr.str "u2", JStr.undef, JStr.str "B", JStr.undef, JStr.undef, JStr.undef, JStr.undef⟩

/-- A store holding one `org1` user `u2` whose stored role is superadmin. -/
def storeSuper : Store :=
  ⟨[("u2", { emptyProfile with
             orgId := JStr.str "org1", role := JStr.str "superadmin" })], [], []⟩

/-- A non-superadmin `org1` admin as the adminHandler variants attach it. -/
def meAdmin1 : Me := ⟨JStr.str "org1", "a1@x.com", "admin", false⟩

/-- A request naming target `u2` with a password and a fullName. -/
def reqU2 : ReqData :=
  ⟨JStr.str "u2", JStr.undef, JStr.str "pw", JStr.undef, JStr.str "X",
    JStr.undef, JStr.undef, JStr.undef, false⟩

/-- The empty Firestore state. -/
def emptyStore : Store := ⟨[], [], []⟩

/-- A store with an `org1` user `u2` and a department `d1` belonging to
`org2`. -/
def deptStore : Store :=
  ⟨[("u2", { emptyProfile with orgId := JStr.str "org1" })],
   [("d1", ⟨JStr.str "org2", JStr.undef⟩)], []⟩

/-- A store holding an `org1` user `u1` and 900 schedules created by `u1`. -/
def store900 : Store :=
  ⟨[("u1", { emptyProfile with orgId := JStr.str "org1" })], [],
    mkSchedules 900 "u1"⟩

/-- An oracle whose provider-account deletion fails with an opaque error. -/
def failOracle : AuthOracle := ⟨.ok "u9", none, none, some "provider-down", ""⟩

/-! Helper lemmas about the cascade batching loop and the store. -/

/-- The lengths the batching loop produces, as a function of how many docs
remain and how full the current batch is. -/
def sizesLoop : Nat → Nat → List Nat
  | 0, count => if count > 0 then [count] else []
  | n + 1, count =>
    if count + 1 = 400 then 400 :: sizesLoop n 0 else sizesLoop n (count + 1)

theorem batchLoop_join (docs : List Schedule) :
    ∀ cur count, count = cur.length →
      (batchLoop docs cur count).flatten = cur.reverse ++ docs := by
  induction docs with
  | nil =>
    intro cur count hc
    by_cases h : count > 0
    · simp [batchLoop, h]
    · have hz : count = 0 := by omega
      subst hz
      cases cur with
      | nil => simp [batchLoop]
      | cons a l => simp at hc
  | cons d rest ih =>
    intro cur count hc
    by_cases h : count + 1 = 400
    · simp only [batchLoop, if_pos h, List.flatten_cons]
      rw [ih [] 0 rfl]
      simp
    · simp only [batchLoop, if_neg h]
      rw [ih (d :: cur) (count + 1) (by simp [hc])]
      simp

theorem batchLoop_length_le (docs : List Schedule) :
    ∀ cur count, count = cur.length → count < 400 →
      ∀ b ∈ batchLoop docs cur count, b.length ≤ 400 := by
  induction docs with
  | nil =>
    intro cur count hc hlt b hb
    by_cases h : count > 0
    · simp [batchLoop, h] at hb
      subst hb
      simp [← hc]
      omega
    · simp [batchLoop, h] at hb
  | cons d rest ih =>
    intro cur count hc hlt b hb
    by_cases h : count + 1 = 400
    · simp only [batchLoop, if_pos h] at hb
      rcases List.mem_cons.mp hb with hb1 | hb2
      · subst hb1
        simp [← hc]
        omega
      · exact ih [] 0 rfl (by omega) b hb2
    · simp only [batchLoop, if_neg h] at hb
      exact ih (d :: cur) (count + 1) (by simp [hc]) (by omega) b hb

theorem batchLoop_sizes (docs : List Schedule) :
    ∀ cur count, count = cur.length →
      (batchLoop docs cur count).map List.length = sizesLoop docs.length count := by
  induction docs with
  | nil =>
    intro cur count hc
    subst hc
    by_cases h : 0 < cur.length <;> simp [batchLoop, sizesLoop, h]
  | cons d rest ih =>
    intro cur count hc
    by_cases h : count + 1 = 400
    · simp only [batchLoop, List.length_cons, sizesLoop, if_pos h, List.map_cons]
      rw [ih [] 0 rfl]
      simp [← hc, h]
    · simp only [batchLoop, List.length_cons, sizesLoop, if_neg h]
      exact ih (d :: cur) (count + 1) (by simp [hc])

theorem mem_foldl_commitBatch (bs : List (List Schedule)) :
    ∀ (init : List Schedule) x, x ∈ bs.foldl commitBatch init →
      x ∈ init ∧ ∀ b ∈ bs, b.any (fun y => y.id == x.id) = false := by
  induction bs with
  | nil =>
    intro init x hx
    simp at hx
    simp [hx]
  | cons b rest ih =>
    intro init x hx
    simp only [List.foldl_cons] at hx
    obtain ⟨hx1, hx2⟩ := ih (commitBatch init b) x hx
    rw [commitBatch] at hx1
    have hm := List.mem_filter.mp hx1
    refine ⟨hm.1, ?_⟩
    intro b' hb'
    rcases List.mem_cons.mp hb' with h1 | h2
    · subst h1
      have h3 := hm.2
      simpa using h3
    · exact hx2 b' h2

theorem applyCascade_not_createdBy (schedules : List Schedule) (uid : String) :
    ∀ x ∈ applyCascade schedules uid, ¬(x.createdBy = uid) := by
  intro x hx hcb
  unfold applyCascade at hx
  obtain ⟨hmem, hall⟩ := mem_foldl_commitBatch _ _ _ hx
  have hxm : x ∈ schedules.filter (fun y => y.createdBy == uid) :=
    List.mem_filter.mpr ⟨hmem, by simp [hcb]⟩
  have hj : x ∈ (cascadeBatches (schedules.filter (fun y => y.createdBy == uid))).flatten := by
    unfold cascadeBatches
    rw [batchLoop_join _ [] 0 rfl]
    simpa using hxm
  obtain ⟨b, hb, hxb⟩ := List.mem_flatten.mp hj
  have hany : b.any (fun y => y.id == x.id) = true :=
    List.any_eq_true.mpr ⟨x, hxb, by simp⟩
  rw [hall b hb] at hany
  exact Bool.noConfusion hany

theorem applyCascade_all (schedules : List Schedule) (uid : String) :
    (applyCascade schedules uid).all (fun x => !(x.createdBy == uid)) = true := by
  rw [List.all_eq_true]
  intro x hx
  simpa using applyCascade_not_createdBy schedules uid x hx

theorem lookup_filter_ne (l : List (String × UserProfile)) (u : String) :
    (l.filter (fun kv => !(kv.1 == u))).lookup u = none := by
  induction l with
  | nil => simp
  | cons kv rest ih =>
    obtain ⟨k, v⟩ := kv
    by_cases h : k = u
    · simpa [List.filter, h] using ih
    · simp only [List.filter]
      have hk : (!(k == u)) = true := by simp [h]
      simp only [hk, if_true]
      rw [List.lookup]
      have : (u == k) = false := by simp [Ne.symm h]
      simp [this, ih]

theorem removeUser_getUser (s : Store) (u : String) :
    (s.removeUser u).getUser u = none :=
  lookup_filter_ne s.users u

theorem setUser_getUser (s : Store) (u : String) (p : UserProfile) :
    (s.setUser u p).getUser u = some p := by
  simp [Store.setUser, Store.getUser, List.lookup]

theorem mkSchedules_length (n : Nat) (u : String) : (mkSchedules n u).length = n := by
  induction n with
  | zero => rfl
  | succ k ih => simp [mkSchedules, ih]

theorem mkSchedules_filter (n : Nat) (u : String) :
    (mkSchedules n u).filter (fun x => x.createdBy == u) = mkSchedules n u := by
  induction n with
  | zero => rfl
  | succ k ih => simp [mkSchedules, List.filter, ih]

set_option maxRecDepth 100000 in
theorem sizesLoop_900 : sizesLoop 900 0 = [400, 400, 100] := by decide

/-! Characterizations of `assertOrgScope` (src/index.js). -/

theorem assertOrgScope_deny (a : IndexJs.Actor) (t : JStr)
    (h1 : a.role ≠ JStr.str "superadmin")
    (h2 : a.orgId.truthy = false ∨ a.orgId ≠ t) :
    IndexJs.assertOrgScope a t = .error ⟨some 403, "permission-denied"⟩ := by
  unfold IndexJs.assertOrgScope
  rw [if_neg h1, if_pos h2]

theorem assertOrgScope_ok (a : IndexJs.Actor) (t : JStr) (u : Unit)
    (h : IndexJs.assertOrgScope a t = .ok u)
    (hrole : a.role ≠ JStr.str "superadmin") :
    a.orgId.truthy = true ∧ a.orgId = t := by
  unfold IndexJs.assertOrgScope at h
  rw [if_neg hrole] at h
  by_cases h2 : a.orgId.truthy = false ∨ a.orgId ≠ t
  · rw [if_pos h2] at h
    exact absurd h (by simp)
  · push_neg at h2
    exact ⟨by simpa using h2.1, h2.2⟩

theorem assertOrgScope_error (a : IndexJs.Actor) (t : JStr) (e : Err)
    (h : IndexJs.assertOrgScope a t = .error e) :
    e = ⟨some 403, "permission-denied"⟩ := by
  unfold IndexJs.assertOrgScope at h
  by_cases h1 : a.role = JStr.str "superadmin"
  · rw [if_pos h1] at h
    exact absurd h (by simp)
  · rw [if_neg h1] at h
    by_cases h2 : a.orgId.truthy = false ∨ a.orgId ≠ t
    · rw [if_pos h2] at h
      exact (Except.error.inj h).symm
    · rw [if_neg h2] at h
      exact absurd h (by simp)

/-! Claim C6. -/

/-- C6: in `src/index.js`, an `updateUser` by a non-superadmin caller on a
target whose stored profile `orgId` differs from the caller's fails with
PermissionDenied (403) and returns the store exactly unchanged: the
`assertOrgScope` check throws before any provider or Firestore write. -/
theorem c6_cross_org_update_frame
    (s : Store) (actor : IndexJs.Actor) (oracle : AuthOracle)
    (d : IndexJs.UpdateData) (u : String) (target : UserProfile)
    (hu : IndexJs.requireString d.uid "uid" = .ok u)
    (ht : s.getUser u = some target)
    (hrole : actor.role ≠ JStr.str "superadmin")
    (horg : target.orgId ≠ actor.orgId) :
    IndexJs.handleUpdateUser s actor oracle d =
      (s, .error ⟨some 403, "permission-denied"⟩) := by
  have hscope := assertOrgScope_deny actor target.orgId hrole (Or.inr (Ne.symm horg))
  simp only [IndexJs.handleUpdateUser, step, hu, ht, hscope]

/-- Witness for C6 at a concrete input: an `org1` admin updating the
`fullName` of an `org2` user is rejected with 403 and the store is
unchanged. -/
theorem c6_cross_org_update_frame_witness :
    IndexJs.requireString (JStr.str "u2") "uid" = .ok "u2" ∧
    store2.getUser "u2" = some prof2 ∧
    IndexJs.handleUpdateUser store2 adminOrg1 okOracle updFullName =
      (store2, .error ⟨some 403, "permission-denied"⟩) :=
  ⟨by decide, by decide,
    c6_cross_org_update_frame store2 adminOrg1 okOracle updFullName "u2" prof2
      (by decide) (by decide) (by decide) (by decide)⟩

/-! Claim C1. -/

/-- C1 as amended: in `src/index.js`, for a non-superadmin caller and a valid
`createUser` request, (i) success implies the caller's orgId is set and equals
the requested org, and (ii) a requested org different from the caller's set
orgId — in particular any request when the caller's orgId is unset — fails
with PermissionDenied (403).  (iii) In the first part_004 variant the org
guard only applies when the caller's orgId is truthy: an `admin` caller with
unset orgId creates a user in an arbitrary org successfully. -/
theorem c1_org_scope_on_create :
    (∀ (s : Store) (actor : IndexJs.Actor) (oracle : AuthOracle) (now : Nat)
        (d : IndexJs.CreateData) (e p f r o : String),
      IndexJs.requireString d.email "email" = .ok e →
      IndexJs.requireString d.password "password" = .ok p →
      IndexJs.requireString d.fullName "fullName" = .ok f →
      IndexJs.requireString d.role "role" = .ok r →
      IndexJs.requireString d.orgId "orgId" = .ok o →
      actor.role ≠ JStr.str "superadmin" →
      ∀ s' uid, IndexJs.handleCreateUser s actor oracle now d = (s', .ok uid) →
        actor.orgId.truthy = true ∧ actor.orgId = JStr.str o) ∧
    (∀ (s : Store) (actor : IndexJs.Actor) (oracle : AuthOracle) (now : Nat)
        (d : IndexJs.CreateData) (e p f r o : String),
      IndexJs.requireString d.email "email" = .ok e →
      IndexJs.requireString d.password "password" = .ok p →
      IndexJs.requireString d.fullName "fullName" = .ok f →
      IndexJs.requireString d.role "role" = .ok r →
      IndexJs.requireString d.orgId "orgId" = .ok o →
      actor.role ≠ JStr.str "superadmin" →
      (actor.orgId.truthy = false ∨ actor.orgId ≠ JStr.str o) →
      IndexJs.handleCreateUser s actor oracle now d =
        (s, .error ⟨some 403, "permission-denied"⟩)) ∧
    (∀ (s : Store) (caller : Part004A.Caller) (oracle : AuthOracle) (now : Nat)
        (d : IndexJs.CreateData) (uid : String),
      caller.role = "admin" →
      caller.orgId.truthy = false →
      d.email.truthy = true → d.password.truthy = true → d.fullName.truthy = true →
      d.role.truthy = true → d.role ≠ JStr.str "superadmin" → d.orgId.truthy = true →
      d.departmentId.truthy = false →
      oracle.createResult = .ok uid → oracle.claimsResult = none →
      (Part004A.handleCreateUser s caller oracle now d).2 = .ok uid) := by
  refine ⟨?_, ?_, ?_⟩
  · intro s actor oracle now d e p f r o he hp hf hr ho hrole s' uid hok
    simp only [IndexJs.handleCreateUser, step, he, hp, hf, hr, ho] at hok
    cases hsc : IndexJs.assertOrgScope actor (JStr.str o) with
    | error e0 =>
      rw [hsc] at hok
      simp at hok
    | ok u0 =>
      exact assertOrgScope_ok actor (JStr.str o) u0 hsc hrole
  · intro s actor oracle now d e p f r o he hp hf hr ho hrole hmis
    have hscope := assertOrgScope_deny actor (JStr.str o) hrole hmis
    simp only [IndexJs.handleCreateUser, step, he, hp, hf, hr, ho, hscope]
  · intro s caller oracle now d uid hadmin hnorg he hp hf hr hnrole ho hdep hcr hcl
    have hguard1 : ¬(caller.role = "admin" ∧ d.role = JStr.str "superadmin") := by
      intro hx
      exact hnrole hx.2
    have hguard2 : ¬(caller.role = "admin" ∧ caller.orgId.truthy = true ∧
        d.orgId ≠ caller.orgId) := by
      intro hx
      rw [hnorg] at hx
      exact Bool.noConfusion hx.2.1
    simp only [Part004A.handleCreateUser, he, hp, hf, hr, ho, Bool.and_self,
      Bool.and_true, Bool.true_and, Bool.not_true, Bool.false_eq_true, if_false,
      if_neg hguard1, if_neg hguard2, Part004A.assertDepartmentBelongsToOrg,
      hdep, step, hcr, hcl]
    simp

/-- Counterexample for C1: in the first part_004 variant an authenticated
`admin` caller whose orgId is unset (null) issues `createUser` with
`orgId = "org2"`; the claim demands PermissionDenied (403), but the creation
succeeds. -/
theorem c1_org_scope_on_create_counterexample :
    (Part004A.handleCreateUser ⟨[], [], []⟩
      ⟨"a1", "a1@x.com", "admin", JStr.nul⟩
      ⟨.ok "u9", none, none, none, ""⟩ 0
      ⟨JStr.str "b@x.com", JStr.str "pw", JStr.str "B", JStr.str "member",
        JStr.str "org2", JStr.undef⟩).2 = .ok "u9" := by decide

/-- Witness for C1: (i)/(ii) at a concrete valid request by the `org1` admin
asking for `org2` (denied, store unchanged), and (iii) see the concrete
success in the counterexample, rechecked here through the theorem. -/
theorem c1_org_scope_on_create_witness :
    IndexJs.requireString (JStr.str "b@x.com") "email" = .ok "b@x.com" ∧
    IndexJs.handleCreateUser store2 adminOrg1 okOracle 0
      ⟨JStr.str "b@x.com", JStr.str "pw", JStr.str "B", JStr.str "member",
        JStr.str "org2", JStr.undef⟩ =
      (store2, .error ⟨some 403, "permission-denied"⟩) ∧
    (Part004A.handleCreateUser ⟨[], [], []⟩
      ⟨"a1", "a1@x.com", "admin", JStr.nul⟩ okOracle 0
      ⟨JStr.str "b@x.com", JStr.str "pw", JStr.str "B", JStr.str "member",
        JStr.str "org2", JStr.undef⟩).2 = .ok "u9" :=
  ⟨by decide,
    c1_org_scope_on_create.2.1 store2 adminOrg1 okOracle 0
      ⟨JStr.str "b@x.com", JStr.str "pw", JStr.str "B", JStr.str "member",
        JStr.str "org2", JStr.undef⟩
      "b@x.com" "pw" "B" "member" "org2"
      (by decide) (by decide) (by decide) (by decide) (by decide) (by decide)
      (by decide),
    c1_org_scope_on_create.2.2 ⟨[], [], []⟩
      ⟨"a1", "a1@x.com", "admin", JStr.nul⟩ okOracle 0
      ⟨JStr.str "b@x.com", JStr.str "pw", JStr.str "B", JStr.str "member",
        JStr.str "org2", JStr.undef⟩ "u9"
      (by decide) (by decide) (by decide) (by decide) (by decide) (by decide)
      (by decide) (by decide) (by decide) (by decide) (by decide)⟩

/-! Claim C3. -/

/-- C3 as amended: in the part_004 `adminHandler` variant, every mutating
action (`updateUser`, `deleteUser`, and each password-reset alias) by a
non-superadmin caller on a target whose effective role is superadmin — i.e.
`isTargetSuperadmin` holds: stored profile role `superadmin` (case-insensitive)
or provider email in the bootstrap list — fails with 403.  The first part_004
variant protects such targets only on `deleteUser` and only via the stored
role, and `src/index.js` not at all (see the counterexample). -/
theorem c3_superadmin_target_protection
    (s : Store) (supers : List String) (me : Me) (oracle : AuthOracle) (now : Nat)
    (d : ReqData)
    (hsup : me.isSuper = false)
    (huid : d.uid.truthy = true)
    (htar : Part004B.isTargetSuperadmin s supers d.uid.orEmpty oracle.userEmail = true) :
    (Part004B.adminHandler s supers me oracle now "updateUser" d).2.status = 403 ∧
    (Part004B.adminHandler s supers me oracle now "deleteUser" d).2.status = 403 ∧
    (∀ a ∈ resetAliases, (d.password.orElse d.newPassword).truthy = true →
      (Part004B.adminHandler s supers me oracle now a d).2.status = 403) := by
  refine ⟨?_, ?_, ?_⟩
  · simp only [Part004B.adminHandler, huid]
    simp [resetAliases, if_pos (⟨hsup, htar⟩ : me.isSuper = false ∧
      Part004B.isTargetSuperadmin s supers d.uid.orEmpty oracle.userEmail = true)]
  · simp only [Part004B.adminHandler, huid]
    simp [resetAliases, if_pos (⟨hsup, htar⟩ : me.isSuper = false ∧
      Part004B.isTargetSuperadmin s supers d.uid.orEmpty oracle.userEmail = true)]
  · intro a ha hpwd
    have ha' : a = "setPassword" ∨ a = "resetPassword" ∨ a = "adminResetPassword" := by
      simpa [resetAliases] using ha
    rcases ha' with h | h | h <;> subst h <;>
      · simp only [Part004B.adminHandler, huid, hpwd]
        simp [resetAliases, if_pos (⟨hsup, htar⟩ : me.isSuper = false ∧
          Part004B.isTargetSuperadmin s supers d.uid.orEmpty oracle.userEmail = true)]

/-- Counterexample for C3: in the first part_004 variant, `handleUpdateUser`
never checks the target's role: an `org1` admin successfully updates the
fullName of a same-org user whose stored role is `superadmin`, where the
claim demands 403. -/
theorem c3_superadmin_target_protection_counterexample :
    (Part004A.handleUpdateUser
      ⟨[("u2", { emptyProfile with
                 orgId := JStr.str "org1", role := JStr.str "superadmin" })], [], []⟩
      ⟨"a1", "a1@x.com", "admin", JStr.str "org1"⟩
      ⟨.ok "u9", none, none, none, ""⟩ 7
      ⟨JStr.str "u2", JStr.undef, JStr.str "X", JStr.undef, JStr.undef,
        JStr.undef, JStr.undef⟩).2 = .ok () := by decide

/-- Witness for C3: a non-superadmin `org1` admin against a stored
`superadmin` target `u2`, on all three action kinds. -/
theorem c3_superadmin_target_protection_witness :
    Part004B.isTargetSuperadmin storeSuper [] "u2" "" = true ∧
    (Part004B.adminHandler storeSuper [] meAdmin1 okOracle 7 "updateUser" reqU2).2.status = 403 ∧
    (Part004B.adminHandler storeSuper [] meAdmin1 okOracle 7 "deleteUser" reqU2).2.status = 403 ∧
    (Part004B.adminHandler storeSuper [] meAdmin1 okOracle 7 "resetPassword" reqU2).2.status = 403 :=
  ⟨by decide,
    (c3_superadmin_target_protection storeSuper [] meAdmin1 okOracle 7 reqU2
      (by decide) (by decide) (by decide)).1,
    (c3_superadmin_target_protection storeSuper [] meAdmin1 okOracle 7 reqU2
      (by decide) (by decide) (by decide)).2.1,
    (c3_superadmin_target_protection storeSuper [] meAdmin1 okOracle 7 reqU2
      (by decide) (by decide) (by decide)).2.2 "resetPassword" (by decide) (by decide)⟩

/-! Claim C2. -/

/-- C2 as amended: a non-superadmin requesting `role = "superadmin"` is
rejected with 403 on (i) `createUser` in `src/index.js` (either by the org
scope check or by the explicit `cannot-create-superadmin` guard), (ii)
`createUser` in the first part_004 variant, and (iii) `updateUser` in the
first part_004 variant; `src/index.js`'s `updateUser`, however, has no such
guard (see the counterexample). -/
theorem c2_superadmin_role_guard :
    (∀ (s : Store) (actor : IndexJs.Actor) (oracle : AuthOracle) (now : Nat)
        (d : IndexJs.CreateData) (e p f r o : String),
      IndexJs.requireString d.email "email" = .ok e →
      IndexJs.requireString d.password "password" = .ok p →
      IndexJs.requireString d.fullName "fullName" = .ok f →
      IndexJs.requireString d.role "role" = .ok r →
      IndexJs.requireString d.orgId "orgId" = .ok o →
      r = "superadmin" →
      actor.role ≠ JStr.str "superadmin" →
      ∃ msg, (IndexJs.handleCreateUser s actor oracle now d).2 =
        .error ⟨some 403, msg⟩) ∧
    (∀ (s : Store) (caller : Part004A.Caller) (oracle : AuthOracle) (now : Nat)
        (d : IndexJs.CreateData),
      caller.role = "admin" →
      d.email.truthy = true → d.password.truthy = true → d.fullName.truthy = true →
      d.role.truthy = true → d.orgId.truthy = true →
      d.role = JStr.str "superadmin" →
      (Part004A.handleCreateUser s caller oracle now d).2 =
        .error ⟨some 403, "permission-denied"⟩) ∧
    (∀ (s : Store) (caller : Part004A.Caller) (oracle : AuthOracle) (now : Nat)
        (d : IndexJs.UpdateData) (target : UserProfile),
      caller.role = "admin" →
      d.uid.truthy = true →
      s.getUser d.uid.orEmpty = some target →
      d.role = JStr.str "superadmin" →
      (Part004A.handleUpdateUser s caller oracle now d).2 =
        .error ⟨some 403, "permission-denied"⟩) := by
  refine ⟨?_, ?_, ?_⟩
  · intro s actor oracle now d e p f r o he hp hf hr ho hrs hrole
    simp only [IndexJs.handleCreateUser, step, he, hp, hf, hr, ho]
    cases hsc : IndexJs.assertOrgScope actor (JStr.str o) with
    | error e0 =>
      have he0 := assertOrgScope_error actor (JStr.str o) e0 hsc
      subst he0
      exact ⟨"permission-denied", rfl⟩
    | ok u0 =>
      exact ⟨"cannot-create-superadmin", by simp [hrs, hrole]⟩
  · intro s caller oracle now d hadmin he hp hf hr ho hrs
    simp only [Part004A.handleCreateUser, he, hp, hf, hr, ho, Bool.and_self,
      Bool.and_true, Bool.true_and, Bool.not_true, Bool.false_eq_true, if_false]
    rw [if_pos (⟨hadmin, hrs⟩ : caller.role = "admin" ∧ d.role = JStr.str "superadmin")]
  · intro s caller oracle now d target hadmin huid ht hrs
    simp only [Part004A.handleUpdateUser, huid, Bool.not_true, Bool.false_eq_true,
      if_false, ht]
    by_cases hg1 : caller.role = "admin" ∧ target.orgId.truthy = true ∧
        caller.orgId.truthy = true ∧ target.orgId ≠ caller.orgId
    · rw [if_pos hg1]
    · rw [if_neg hg1,
        if_pos (⟨hadmin, hrs⟩ : caller.role = "admin" ∧ d.role = JStr.str "superadmin")]

/-- Counterexample for C2: in `src/index.js`, `handleUpdateUser` has no
role-escalation guard.  An `org1` admin setting `role = "superadmin"` on a
same-org member succeeds and the stored profile role becomes `superadmin`,
where the claim demands PermissionDenied (403). -/
theorem c2_superadmin_role_guard_counterexample :
    (IndexJs.handleUpdateUser
      ⟨[("u2", { emptyProfile with orgId := JStr.str "org1", role := JStr.str "member" })], [], []⟩
      ⟨"a1", JStr.str "admin", JStr.str "org1"⟩
      ⟨.ok "u9", none, none, none, ""⟩
      ⟨JStr.str "u2", JStr.undef, JStr.undef, JStr.str "superadmin", JStr.undef,
        JStr.undef, JStr.undef⟩).2 = .ok () ∧
    ((IndexJs.handleUpdateUser
      ⟨[("u2", { emptyProfile with orgId := JStr.str "org1", role := JStr.str "member" })], [], []⟩
      ⟨"a1", JStr.str "admin", JStr.str "org1"⟩
      ⟨.ok "u9", none, none, none, ""⟩
      ⟨JStr.str "u2", JStr.undef, JStr.undef, JStr.str "superadmin", JStr.undef,
        JStr.undef, JStr.undef⟩).1.getUser "u2") =
      some { emptyProfile with orgId := JStr.str "org1", role := JStr.str "superadmin" } := by
  constructor <;> decide

/-- Witness for C2: the three proved conjuncts at concrete requests asking
for a `superadmin` role. -/
theorem c2_superadmin_role_guard_witness :
    IndexJs.requireString (JStr.str "superadmin") "role" = .ok "superadmin" ∧
    (∃ msg, (IndexJs.handleCreateUser store2 adminOrg1 okOracle 0
      ⟨JStr.str "b@x.com", JStr.str "pw", JStr.str "B", JStr.str "superadmin",
        JStr.str "org1", JStr.undef⟩).2 = .error ⟨some 403, msg⟩) ∧
    (Part004A.handleCreateUser ⟨[], [], []⟩
      ⟨"a1", "a1@x.com", "admin", JStr.str "org1"⟩ okOracle 0
      ⟨JStr.str "b@x.com", JStr.str "pw", JStr.str "B", JStr.str "superadmin",
        JStr.str "org1", JStr.undef⟩).2 = .error ⟨some 403, "permission-denied"⟩ ∧
    (Part004A.handleUpdateUser store2
      ⟨"a1", "a1@x.com", "admin", JStr.str "org2"⟩ okOracle 0
      ⟨JStr.str "u2", JStr.undef, JStr.undef, JStr.str "superadmin", JStr.undef,
        JStr.undef, JStr.undef⟩).2 = .error ⟨some 403, "permission-denied"⟩ :=
  ⟨by decide,
    c2_superadmin_role_guard.1 store2 adminOrg1 okOracle 0
      ⟨JStr.str "b@x.com", JStr.str "pw", JStr.str "B", JStr.str "superadmin",
        JStr.str "org1", JStr.undef⟩
      "b@x.com" "pw" "B" "superadmin" "org1"
      (by decide) (by decide) (by decide) (by decide) (by decide) (by decide)
      (by decide),
    c2_superadmin_role_guard.2.1 ⟨[], [], []⟩
      ⟨"a1", "a1@x.com", "admin", JStr.str "org1"⟩ okOracle 0
      ⟨JStr.str "b@x.com", JStr.str "pw", JStr.str "B", JStr.str "superadmin",
        JStr.str "org1", JStr.undef⟩
      (by decide) (by decide) (by decide) (by decide) (by decide) (by decide)
      (by decide),
    c2_superadmin_role_guard.2.2 store2
      ⟨"a1", "a1@x.com", "admin", JStr.str "org2"⟩ okOracle 0
      ⟨JStr.str "u2", JStr.undef, JStr.undef, JStr.str "superadmin", JStr.undef,
        JStr.undef, JStr.undef⟩ prof2
      (by decide) (by decide) (by decide) (by decide)⟩

/-! Claim C4. -/

theorem JStr.orElse_of_truthy (a b : JStr) (h : a.truthy = true) : a.orElse b = a := by
  simp [JStr.orElse, h]

theorem JStr.orElse_of_falsy (a b : JStr) (h : a.truthy = false) : a.orElse b = b := by
  simp [JStr.orElse, h]

/-- C4 as amended: the precedence holds for part_004's
`assertAdminFromIdToken` — (1) a truthy stored profile role wins, (2)
otherwise a truthy custom-claim role (this fallback also fires when a profile
document exists without a role, not only when no profile exists), (3)
otherwise a nonempty caller email in the bootstrap list yields `superadmin` —
and when the resolved role is not `admin`/`superadmin` (in particular when no
step yields a role) the request fails with 403 `permission-denied`.
Part_003's `requireAdmin`, however, gives the bootstrap list precedence over
the stored role and never consults custom claims (see the counterexample). -/
theorem c4_role_resolver_precedence :
    (∀ (s : Store) (supers : List String) (dec : Decoded) (rr : String),
      Part004A.roleFS s dec.uid = JStr.str rr → rr ≠ "" →
      ((rr = "admin" ∨ rr = "superadmin") →
        ∃ c, Part004A.assertAdminFromIdToken s supers dec = .ok c ∧ c.role = rr) ∧
      (¬(rr = "admin" ∨ rr = "superadmin") →
        Part004A.assertAdminFromIdToken s supers dec =
          .error ⟨some 403, "permission-denied"⟩)) ∧
    (∀ (s : Store) (supers : List String) (dec : Decoded) (rc : String),
      Part004A.roleFS s dec.uid = JStr.nul → dec.role = JStr.str rc → rc ≠ "" →
      ((rc = "admin" ∨ rc = "superadmin") →
        ∃ c, Part004A.assertAdminFromIdToken s supers dec = .ok c ∧ c.role = rc) ∧
      (¬(rc = "admin" ∨ rc = "superadmin") →
        Part004A.assertAdminFromIdToken s supers dec =
          .error ⟨some 403, "permission-denied"⟩)) ∧
    (∀ (s : Store) (supers : List String) (dec : Decoded),
      Part004A.roleFS s dec.uid = JStr.nul → dec.role.truthy = false →
      (!(jsToLower dec.email.orEmpty == "") &&
        supers.contains (jsToLower dec.email.orEmpty)) = true →
      ∃ c, Part004A.assertAdminFromIdToken s supers dec = .ok c ∧
        c.role = "superadmin") ∧
    (∀ (s : Store) (supers : List String) (dec : Decoded),
      Part004A.roleFS s dec.uid = JStr.nul → dec.role.truthy = false →
      (!(jsToLower dec.email.orEmpty == "") &&
        supers.contains (jsToLower dec.email.orEmpty)) = false →
      Part004A.assertAdminFromIdToken s supers dec =
        .error ⟨some 403, "permission-denied"⟩) := by
  refine ⟨?_, ?_, ?_, ?_⟩
  · intro s supers dec rr hFS hne
    have htr : (JStr.str rr).truthy = true := by simp [JStr.truthy, hne]
    constructor
    · intro hall
      have hcont : (JStr.str rr).isOneOf ["admin", "superadmin"] = true := by
        simp [JStr.isOneOf]
        tauto
      simp only [Part004A.assertAdminFromIdToken, hFS,
        JStr.orElse_of_truthy _ _ htr, hcont, if_true]
      exact ⟨_, rfl, rfl⟩
    · intro hnall
      have hcont : (JStr.str rr).isOneOf ["admin", "superadmin"] = false := by
        simp [JStr.isOneOf]
        tauto
      simp only [Part004A.assertAdminFromIdToken, hFS,
        JStr.orElse_of_truthy _ _ htr, hcont, Bool.false_eq_true, if_false]
  · intro s supers dec rc hFS hc hne
    have htr : (JStr.str rc).truthy = true := by simp [JStr.truthy, hne]
    have hnultr : JStr.nul.truthy = false := rfl
    constructor
    · intro hall
      have hcont : (JStr.str rc).isOneOf ["admin", "superadmin"] = true := by
        simp [JStr.isOneOf]
        tauto
      simp only [Part004A.assertAdminFromIdToken, hFS, hc,
        JStr.orElse_of_falsy _ _ hnultr, htr, if_true,
        JStr.orElse_of_truthy _ _ htr, hcont]
      exact ⟨_, rfl, rfl⟩
    · intro hnall
      have hcont : (JStr.str rc).isOneOf ["admin", "superadmin"] = false := by
        simp [JStr.isOneOf]
        tauto
      simp only [Part004A.assertAdminFromIdToken, hFS, hc,
        JStr.orElse_of_falsy _ _ hnultr, htr, if_true,
        JStr.orElse_of_truthy _ _ htr, hcont, Bool.false_eq_true, if_false]
  · intro s supers dec hFS hcl hboot
    have hcltr : (if dec.role.truthy then dec.role else JStr.nul) = JStr.nul := by
      rw [hcl]
      simp
    have hnultr : JStr.nul.truthy = false := rfl
    simp only [Part004A.assertAdminFromIdToken, hFS, hcltr, hboot,
      JStr.orElse_of_falsy _ _ hnultr, if_true]
    rw [if_pos (show (JStr.str "superadmin").isOneOf ["admin", "superadmin"] = true
      by decide)]
    exact ⟨_, rfl, rfl⟩
  · intro s supers dec hFS hcl hboot
    have hcltr : (if dec.role.truthy then dec.role else JStr.nul) = JStr.nul := by
      rw [hcl]
      simp
    have hnultr : JStr.nul.truthy = false := rfl
    simp only [Part004A.assertAdminFromIdToken, hFS, hcltr, hboot,
      JStr.orElse_of_falsy _ _ hnultr, Bool.false_eq_true, if_false]
    rw [if_neg (show ¬(JStr.nul.isOneOf ["admin", "superadmin"] = true) by decide)]

/-- Counterexample for C4: in part_003's `requireAdmin` the bootstrap list
overrides the stored profile.  Caller `a1` has a stored profile with role
`admin`, so the claimed precedence (stored profile role first) makes the
effective role `admin`; part_003 resolves `superadmin` (`isSuper = true`)
because the email is in the bootstrap list. -/
theorem c4_role_resolver_precedence_counterexample :
    Store.getUser ⟨[("a1", { emptyProfile with
      role := JStr.str "admin", orgId := JStr.str "org1" })], [], []⟩ "a1" =
      some { emptyProfile with role := JStr.str "admin", orgId := JStr.str "org1" } ∧
    Part003.requireAdmin ⟨[("a1", { emptyProfile with
      role := JStr.str "admin", orgId := JStr.str "org1" })], [], []⟩
      ["boss@x.com"] ⟨"a1", JStr.str "boss@x.com", JStr.undef, JStr.undef⟩ =
      .ok ⟨JStr.str "org1", "boss@x.com", "superadmin", true⟩ := by
  constructor <;> decide

/-- Witness for C4: each resolver path at a concrete input — stored role
`admin` wins; with no profile a claim role `admin` wins; with neither, a
bootstrap email yields `superadmin`; with nothing, 403. -/
theorem c4_role_resolver_precedence_witness :
    (∃ c, Part004A.assertAdminFromIdToken
        ⟨[("a1", { emptyProfile with role := JStr.str "admin" })], [], []⟩ []
        ⟨"a1", JStr.str "a1@x.com", JStr.str "member", JStr.undef⟩ = .ok c ∧
      c.role = "admin") ∧
    (∃ c, Part004A.assertAdminFromIdToken ⟨[], [], []⟩ []
        ⟨"a1", JStr.str "a1@x.com", JStr.str "admin", JStr.undef⟩ = .ok c ∧
      c.role = "admin") ∧
    (∃ c, Part004A.assertAdminFromIdToken ⟨[], [], []⟩ ["a1@x.com"]
        ⟨"a1", JStr.str "a1@x.com", JStr.undef, JStr.undef⟩ = .ok c ∧
      c.role = "superadmin") ∧
    Part004A.assertAdminFromIdToken ⟨[], [], []⟩ []
        ⟨"a1", JStr.str "a1@x.com", JStr.undef, JStr.undef⟩ =
      .error ⟨some 403, "permission-denied"⟩ :=
  ⟨(c4_role_resolver_precedence.1
      ⟨[("a1", { emptyProfile with role := JStr.str "admin" })], [], []⟩ []
      ⟨"a1", JStr.str "a1@x.com", JStr.str "member", JStr.undef⟩ "admin"
      (by decide) (by decide)).1 (Or.inl rfl),
    (c4_role_resolver_precedence.2.1 ⟨[], [], []⟩ []
      ⟨"a1", JStr.str "a1@x.com", JStr.str "admin", JStr.undef⟩ "admin"
      (by decide) (by decide) (by decide)).1 (Or.inl rfl),
    c4_role_resolver_precedence.2.2.1 ⟨[], [], []⟩ ["a1@x.com"]
      ⟨"a1", JStr.str "a1@x.com", JStr.undef, JStr.undef⟩
      (by decide) (by decide) (by decide),
    c4_role_resolver_precedence.2.2.2 ⟨[], [], []⟩ []
      ⟨"a1", JStr.str "a1@x.com", JStr.undef, JStr.undef⟩
      (by decide) (by decide) (by decide)⟩

/-! Claim C5. -/

/-- C5: in both variants that implement the password-reset aliases (part_003
and the part_004 adminHandler), when the target has no stored profile a
non-superadmin caller is rejected with 403, for every alias; so the action
can succeed only for a superadmin caller. -/
theorem c5_reset_without_profile
    (s : Store) (supers : List String) (me : Me) (oracle : AuthOracle) (now : Nat)
    (d : ReqData) (a : String)
    (ha : a ∈ resetAliases)
    (hsup : me.isSuper = false)
    (huid : d.uid.truthy = true)
    (hpwd : (d.password.orElse d.newPassword).truthy = true)
    (hnoprof : s.getUser d.uid.orEmpty = none) :
    Part003.adminHandler s me oracle now a d =
      (s, ⟨403, "only superadmin can reset users without profile"⟩) ∧
    (Part004B.adminHandler s supers me oracle now a d).2.status = 403 := by
  have ha' : a = "setPassword" ∨ a = "resetPassword" ∨ a = "adminResetPassword" := by
    simpa [resetAliases] using ha
  rcases ha' with h | h | h <;> subst h <;> refine ⟨?_, ?_⟩
  · simp [Part003.adminHandler, resetAliases, huid, hpwd, hsup, hnoprof]
  · cases htar0 : Part004B.isTargetSuperadmin s supers d.uid.orEmpty oracle.userEmail with
    | true => simp [Part004B.adminHandler, resetAliases, huid, hpwd, hsup, htar0]
    | false => simp [Part004B.adminHandler, resetAliases, huid, hpwd, hsup, htar0, hnoprof]
  · simp [Part003.adminHandler, resetAliases, huid, hpwd, hsup, hnoprof]
  · cases htar0 : Part004B.isTargetSuperadmin s supers d.uid.orEmpty oracle.userEmail with
    | true => simp [Part004B.adminHandler, resetAliases, huid, hpwd, hsup, htar0]
    | false => simp [Part004B.adminHandler, resetAliases, huid, hpwd, hsup, htar0, hnoprof]
  · simp [Part003.adminHandler, resetAliases, huid, hpwd, hsup, hnoprof]
  · cases htar0 : Part004B.isTargetSuperadmin s supers d.uid.orEmpty oracle.userEmail with
    | true => simp [Part004B.adminHandler, resetAliases, huid, hpwd, hsup, htar0]
    | false => simp [Part004B.adminHandler, resetAliases, huid, hpwd, hsup, htar0, hnoprof]

/-- Witness for C5: a non-superadmin admin resetting the password of `u2`,
who has no stored profile, is rejected with 403 in both variants. -/
theorem c5_reset_without_profile_witness :
    Store.getUser emptyStore "u2" = none ∧
    Part003.adminHandler emptyStore meAdmin1 okOracle 7 "resetPassword" reqU2 =
      (emptyStore, ⟨403, "only superadmin can reset users without profile"⟩) ∧
    (Part004B.adminHandler emptyStore [] meAdmin1 okOracle 7 "resetPassword" reqU2).2.status
      = 403 :=
  ⟨by decide,
    (c5_reset_without_profile emptyStore [] meAdmin1 okOracle 7 reqU2 "resetPassword"
      (by decide) (by decide) (by decide) (by decide) (by decide)).1,
    (c5_reset_without_profile emptyStore [] meAdmin1 okOracle 7 reqU2 "resetPassword"
      (by decide) (by decide) (by decide) (by decide) (by decide)).2⟩

/-! Claim C7. -/

theorem requireString_ok_shape (v : JStr) (n x : String)
    (h : IndexJs.requireString v n = .ok x) :
    ∃ s0, v = JStr.str s0 ∧ s0 ≠ "" ∧ x = jsTrim s0 := by
  cases v with
  | undef => exact absurd h (by simp [IndexJs.requireString])
  | nul => exact absurd h (by simp [IndexJs.requireString])
  | str s0 =>
    by_cases hs : s0 = ""
    · rw [IndexJs.requireString, if_pos hs] at h
      exact absurd h (by simp)
    · rw [IndexJs.requireString, if_neg hs] at h
      exact ⟨s0, rfl, hs, (Except.ok.inj h).symm⟩

theorem assertDeptIndex_none (s : Store) (dp org : JStr)
    (htr : dp.truthy = true) (hn : s.getDept dp.orEmpty = none) :
    IndexJs.assertDepartmentBelongsToOrg s dp org =
      .error ⟨some 400, "department-not-found"⟩ := by
  unfold IndexJs.assertDepartmentBelongsToOrg
  rw [if_neg (by simp [htr]), hn]

theorem assertDeptIndex_mismatch (s : Store) (dp org : JStr) (dep : Department)
    (y : String) (htr : dp.truthy = true) (hd : s.getDept dp.orEmpty = some dep)
    (hy : dep.orgId.orElse dep.organizationId = JStr.str y)
    (hyne : y ≠ "") (hne : JStr.str y ≠ org) :
    IndexJs.assertDepartmentBelongsToOrg s dp org =
      .error ⟨some 400, "department-org-mismatch"⟩ := by
  unfold IndexJs.assertDepartmentBelongsToOrg
  rw [if_neg (by simp [htr]), hd]
  simp only [hy]
  rw [if_pos ⟨by simp [JStr.truthy, hyne], hne⟩]

theorem assertDept4A_none (s : Store) (dp org : JStr)
    (htr : dp.truthy = true) (hn : s.getDept dp.orEmpty = none) :
    Part004A.assertDepartmentBelongsToOrg s dp org =
      .error ⟨some 400, "department-not-found"⟩ := by
  unfold Part004A.assertDepartmentBelongsToOrg
  rw [if_neg (by simp [htr]), hn]

theorem assertDept4A_mismatch (s : Store) (dp org : JStr) (dep : Department)
    (htr : dp.truthy = true) (hd : s.getDept dp.orEmpty = some dep)
    (hne : dep.orgId ≠ org) :
    Part004A.assertDepartmentBelongsToOrg s dp org =
      .error ⟨some 400, "department-org-mismatch"⟩ := by
  unfold Part004A.assertDepartmentBelongsToOrg
  rw [if_neg (by simp [htr]), hd]
  simp [hne]

/-- C7: whenever a create or update supplies a truthy `departmentId` and the
department document is missing, or present with an `orgId` that is set and
differs from the effective target org (the requested org on create, the
requested org when an org change is requested on update and otherwise the
target's current org), the action fails with 400: (i) `createUser` and (ii)
`updateUser` of `src/index.js`, and (iii) `createUser` of the first part_004
variant, where the department comparison is strict equality on the requested
org. -/
theorem c7_department_containment :
    (∀ (s : Store) (actor : IndexJs.Actor) (oracle : AuthOracle) (now : Nat)
        (d : IndexJs.CreateData) (e p f r o dp : String),
      IndexJs.requireString d.email "email" = .ok e →
      IndexJs.requireString d.password "password" = .ok p →
      IndexJs.requireString d.fullName "fullName" = .ok f →
      IndexJs.requireString d.role "role" = .ok r →
      IndexJs.requireString d.orgId "orgId" = .ok o →
      IndexJs.assertOrgScope actor (JStr.str o) = .ok () →
      ¬(r = "superadmin" ∧ actor.role ≠ JStr.str "superadmin") →
      d.departmentId = JStr.str dp → jsTrim dp ≠ "" →
      (s.getDept (jsTrim dp) = none ∨
        ∃ dep y, s.getDept (jsTrim dp) = some dep ∧
          dep.orgId.orElse dep.organizationId = JStr.str y ∧ y ≠ "" ∧ y ≠ o) →
      ∃ msg, IndexJs.handleCreateUser s actor oracle now d =
        (s, .error ⟨some 400, msg⟩)) ∧
    (∀ (s : Store) (actor : IndexJs.Actor) (oracle : AuthOracle)
        (d : IndexJs.UpdateData) (u dp : String) (cur : UserProfile) (vorg : JStr),
      IndexJs.requireString d.uid "uid" = .ok u →
      s.getUser u = some cur →
      IndexJs.assertOrgScope actor cur.orgId = .ok () →
      (d.orgId.isDefined = false ∨
        (actor.role = JStr.str "superadmin" ∧
          ∃ o2, IndexJs.requireString d.orgId "orgId" = .ok o2)) →
      (if d.orgId.isDefined then d.orgId else cur.orgId) = vorg →
      d.departmentId = JStr.str dp → jsTrim dp ≠ "" →
      (s.getDept (jsTrim dp) = none ∨
        ∃ dep y, s.getDept (jsTrim dp) = some dep ∧
          dep.orgId.orElse dep.organizationId = JStr.str y ∧ y ≠ "" ∧
          JStr.str y ≠ vorg) →
      ∃ msg, IndexJs.handleUpdateUser s actor oracle d =
        (s, .error ⟨some 400, msg⟩)) ∧
    (∀ (s : Store) (caller : Part004A.Caller) (oracle : AuthOracle) (now : Nat)
        (d : IndexJs.CreateData),
      d.email.truthy = true → d.password.truthy = true → d.fullName.truthy = true →
      d.role.truthy = true → d.orgId.truthy = true →
      ¬(caller.role = "admin" ∧ d.role = JStr.str "superadmin") →
      ¬(caller.role = "admin" ∧ caller.orgId.truthy = true ∧ d.orgId ≠ caller.orgId) →
      d.departmentId.truthy = true →
      (s.getDept d.departmentId.orEmpty = none ∨
        ∃ dep, s.getDept d.departmentId.orEmpty = some dep ∧ dep.orgId ≠ d.orgId) →
      ∃ msg, Part004A.handleCreateUser s caller oracle now d =
        (s, .error ⟨some 400, msg⟩)) := by
  refine ⟨?_, ?_, ?_⟩
  · intro s actor oracle now d e p f r o dp he hp hf hr ho hsc hrg hdp hdptr hbad
    have hdpne : dp ≠ "" := by
      intro h
      subst h
      exact hdptr rfl
    have hdtru : d.departmentId.truthy = true := by simp [hdp, JStr.truthy, hdpne]
    have hde : (if d.departmentId.truthy = true then
        JStr.str (jsTrim d.departmentId.orEmpty) else JStr.nul) =
        JStr.str (jsTrim dp) := by
      rw [if_pos hdtru, hdp]
      rfl
    have htr2 : (JStr.str (jsTrim dp)).truthy = true := by
      simp [JStr.truthy, hdptr]
    rcases hbad with hn | ⟨dep, y, hd, hy, hyne, hyo⟩
    · refine ⟨"department-not-found", ?_⟩
      simp only [IndexJs.handleCreateUser, step, he, hp, hf, hr, ho, hsc,
        if_neg hrg, hde,
        assertDeptIndex_none s (JStr.str (jsTrim dp)) (JStr.str o) htr2 hn]
    · refine ⟨"department-org-mismatch", ?_⟩
      have hne : JStr.str y ≠ JStr.str o := by
        intro h
        exact hyo (JStr.str.inj h)
      simp only [IndexJs.handleCreateUser, step, he, hp, hf, hr, ho, hsc,
        if_neg hrg, hde,
        assertDeptIndex_mismatch s (JStr.str (jsTrim dp)) (JStr.str o) dep y
          htr2 hd hy hyne hne]
  · intro s actor oracle d u dp cur vorg hu ht hsc hoc hvo hdp hdptr hbad
    have hdpne : dp ≠ "" := by
      intro h
      subst h
      exact hdptr rfl
    have hdtru : d.departmentId.truthy = true := by simp [hdp, JStr.truthy, hdpne]
    have hddef : d.departmentId.isDefined = true := by simp [hdp, JStr.isDefined]
    have htr2 : (JStr.str (jsTrim dp)).truthy = true := by
      simp [JStr.truthy, hdptr]
    have horgok : (if d.orgId.isDefined = false then Except.ok ()
        else if actor.role ≠ JStr.str "superadmin" then
          (Except.error ⟨some 403, "cannot-change-org-as-admin"⟩ : Except Err Unit)
        else (IndexJs.requireString d.orgId "orgId").map (fun _ => ())) = .ok () := by
      rcases hoc with hno | ⟨hsuper, o2, ho2⟩
      · rw [if_pos hno]
      · obtain ⟨s0, hv, hs0, _⟩ := requireString_ok_shape d.orgId "orgId" o2 ho2
        have : d.orgId.isDefined = true := by simp [hv, JStr.isDefined]
        rw [if_neg (by simp [this]), if_neg (by simp [hsuper]), ho2]
        rfl
    have hcheckdep : (if d.departmentId.truthy = true then
        JStr.str (jsTrim d.departmentId.orEmpty) else JStr.nul) =
        JStr.str (jsTrim dp) := by
      rw [if_pos hdtru, hdp]
      rfl
    rcases hbad with hn | ⟨dep, y, hd, hy, hyne, hyv⟩
    · refine ⟨"department-not-found", ?_⟩
      have hdept := assertDeptIndex_none s (JStr.str (jsTrim dp)) vorg htr2 hn
      simp only [IndexJs.handleUpdateUser, step, hu, ht, hsc, horgok, hddef,
        if_true, hcheckdep, hvo, hdept]
      simp
    · refine ⟨"department-org-mismatch", ?_⟩
      have hdept := assertDeptIndex_mismatch s (JStr.str (jsTrim dp)) vorg dep y
        htr2 hd hy hyne hyv
      simp only [IndexJs.handleUpdateUser, step, hu, ht, hsc, horgok, hddef,
        if_true, hcheckdep, hvo, hdept]
      simp
  · intro s caller oracle now d he hp hf hr ho hg1 hg2 hdtru hbad
    rcases hbad with hn | ⟨dep, hd, hne⟩
    · refine ⟨"department-not-found", ?_⟩
      have hdept := assertDept4A_none s d.departmentId d.orgId hdtru hn
      simp only [Part004A.handleCreateUser, he, hp, hf, hr, ho, Bool.and_self,
        Bool.and_true, Bool.true_and, Bool.not_true, Bool.false_eq_true, if_false,
        if_neg hg1, if_neg hg2, hdept, hdtru, if_true, step]
    · refine ⟨"department-org-mismatch", ?_⟩
      have hdept := assertDept4A_mismatch s d.departmentId d.orgId dep hdtru hd hne
      simp only [Part004A.handleCreateUser, he, hp, hf, hr, ho, Bool.and_self,
        Bool.and_true, Bool.true_and, Bool.not_true, Bool.false_eq_true, if_false,
        if_neg hg1, if_neg hg2, hdept, hdtru, if_true, step]

/-- Witness for C7: (i) create with a missing department, (ii) update
supplying a department of `org2` while the target stays in `org1`, (iii)
part_004 create with a missing department — each fails with 400. -/
theorem c7_department_containment_witness :
    (∃ msg, IndexJs.handleCreateUser emptyStore adminOrg1 okOracle 0
      ⟨JStr.str "b@x.com", JStr.str "pw", JStr.str "B", JStr.str "member",
        JStr.str "org1", JStr.str "dX"⟩ =
      (emptyStore, .error ⟨some 400, msg⟩)) ∧
    (∃ msg, IndexJs.handleUpdateUser deptStore adminOrg1 okOracle
      ⟨JStr.str "u2", JStr.undef, JStr.undef, JStr.undef, JStr.undef,
        JStr.str "d1", JStr.undef⟩ =
      (deptStore, .error ⟨some 400, msg⟩)) ∧
    (∃ msg, Part004A.handleCreateUser emptyStore
      ⟨"a1", "a1@x.com", "admin", JStr.str "org1"⟩ okOracle 0
      ⟨JStr.str "b@x.com", JStr.str "pw", JStr.str "B", JStr.str "member",
        JStr.str "org1", JStr.str "dX"⟩ =
      (emptyStore, .error ⟨some 400, msg⟩)) :=
  ⟨c7_department_containment.1 emptyStore adminOrg1 okOracle 0
      ⟨JStr.str "b@x.com", JStr.str "pw", JStr.str "B", JStr.str "member",
        JStr.str "org1", JStr.str "dX"⟩
      "b@x.com" "pw" "B" "member" "org1" "dX"
      (by decide) (by decide) (by decide) (by decide) (by decide) (by decide)
      (by decide) (by decide) (by decide) (Or.inl (by decide)),
    c7_department_containment.2.1 deptStore adminOrg1 okOracle
      ⟨JStr.str "u2", JStr.undef, JStr.undef, JStr.undef, JStr.undef,
        JStr.str "d1", JStr.undef⟩
      "u2" "d1" { emptyProfile with orgId := JStr.str "org1" } (JStr.str "org1")
      (by decide) (by decide) (by decide) (Or.inl (by decide)) (by decide)
      (by decide) (by decide)
      (Or.inr ⟨⟨JStr.str "org2", JStr.undef⟩, "org2", by decide, by decide,
        by decide, by decide⟩),
    c7_department_containment.2.2 emptyStore
      ⟨"a1", "a1@x.com", "admin", JStr.str "org1"⟩ okOracle 0
      ⟨JStr.str "b@x.com", JStr.str "pw", JStr.str "B", JStr.str "member",
        JStr.str "org1", JStr.str "dX"⟩
      (by decide) (by decide) (by decide) (by decide) (by decide) (by decide)
      (by decide) (by decide) (Or.inl (by decide))⟩

/-! Claim C8. -/

theorem isTarget_of_missing (s1 : Store) (supers : List String) (uid authEmail : String)
    (h : s1.getUser uid = none) :
    Part004B.isTargetSuperadmin s1 supers uid authEmail =
      Part004B.isSuperEmail supers (JStr.str (jsToLower authEmail)) := by
  unfold Part004B.isTargetSuperadmin
  rw [h]
  have hemp : jsToLower "" = "" := rfl
  simp [hemp]

theorem isTarget_email_mono (s : Store) (supers : List String) (uid authEmail : String)
    (h : Part004B.isSuperEmail supers (JStr.str (jsToLower authEmail)) = true) :
    Part004B.isTargetSuperadmin s supers uid authEmail = true := by
  unfold Part004B.isTargetSuperadmin
  simp [h]

/-- The part_004 adminHandler `deleteUser` branch always responds
`{ok:true}` when the uid is truthy and the superadmin-target guard does not
fire, and afterwards the target's profile document is gone. -/
theorem deleteUser_ok (s : Store) (supers : List String) (me : Me)
    (oracle : AuthOracle) (now : Nat) (d : ReqData)
    (htru : d.uid.truthy = true)
    (hg : ¬(me.isSuper = false ∧
      Part004B.isTargetSuperadmin s supers d.uid.orEmpty oracle.userEmail = true)) :
    (Part004B.adminHandler s supers me oracle now "deleteUser" d).2 = ⟨200, "ok"⟩ ∧
    ((Part004B.adminHandler s supers me oracle now "deleteUser" d).1).getUser
      d.uid.orEmpty = none := by
  cases hc : d.cascade <;>
    simp [Part004B.adminHandler, resetAliases, htru, if_neg hg, hc,
      Store.getUser, Store.removeUser, lookup_filter_ne]

/-- C8 as amended: the part_004 adminHandler `deleteUser` is idempotent — if
a call returns `{ok:true}` (200), calling it again on the resulting state
returns `{ok:true}` again: the second call finds no profile document (not an
error) and the provider delete is fire-and-forget.  In `src/index.js` the
claim fails: the second call is rejected with 404 `user-not-found` (see the
counterexample). -/
theorem c8_delete_idempotence (s : Store) (supers : List String) (me : Me)
    (oracle : AuthOracle) (now : Nat) (d : ReqData)
    (h1 : (Part004B.adminHandler s supers me oracle now "deleteUser" d).2 =
      ⟨200, "ok"⟩) :
    (Part004B.adminHandler
      (Part004B.adminHandler s supers me oracle now "deleteUser" d).1
      supers me oracle now "deleteUser" d).2 = ⟨200, "ok"⟩ := by
  by_cases htru : d.uid.truthy = true
  · by_cases hg : me.isSuper = false ∧
        Part004B.isTargetSuperadmin s supers d.uid.orEmpty oracle.userEmail = true
    · simp [Part004B.adminHandler, resetAliases, htru, if_pos hg] at h1
    · obtain ⟨hok1, hnone⟩ := deleteUser_ok s supers me oracle now d htru hg
      have hg2 : ¬(me.isSuper = false ∧
          Part004B.isTargetSuperadmin
            ((Part004B.adminHandler s supers me oracle now "deleteUser" d).1)
            supers d.uid.orEmpty oracle.userEmail = true) := by
        intro hx
        rw [isTarget_of_missing _ _ _ _ hnone] at hx
        exact hg ⟨hx.1, isTarget_email_mono s supers d.uid.orEmpty oracle.userEmail hx.2⟩
      exact (deleteUser_ok _ supers me oracle now d htru hg2).1
  · have htru' : d.uid.truthy = false := by
      revert htru
      cases d.uid.truthy <;> simp
    simp [Part004B.adminHandler, resetAliases, htru'] at h1

/-- Counterexample for C8: in `src/index.js`, `deleteUser` called twice on
the same uid returns `{ok:true}` the first time but 404 `user-not-found` the
second time, because a missing profile document aborts the deletion before
anything else happens. -/
theorem c8_delete_idempotence_counterexample :
    (IndexJs.handleDeleteUser store2 ⟨"root", JStr.str "superadmin", JStr.undef⟩
      okOracle ⟨JStr.str "u2", false⟩).2 = .ok () ∧
    (IndexJs.handleDeleteUser
      (IndexJs.handleDeleteUser store2 ⟨"root", JStr.str "superadmin", JStr.undef⟩
        okOracle ⟨JStr.str "u2", false⟩).1
      ⟨"root", JStr.str "superadmin", JStr.undef⟩
      okOracle ⟨JStr.str "u2", false⟩).2 = .error ⟨some 404, "user-not-found"⟩ := by
  constructor <;> decide

/-- Witness for C8: a concrete first deletion of `u2` that returns 200/ok,
from which the theorem yields 200/ok for the repeated call. -/
theorem c8_delete_idempotence_witness :
    (Part004B.adminHandler store2 [] meAdmin1 okOracle 7 "deleteUser" reqU2).2 =
      ⟨200, "ok"⟩ ∧
    (Part004B.adminHandler
      (Part004B.adminHandler store2 [] meAdmin1 okOracle 7 "deleteUser" reqU2).1
      [] meAdmin1 okOracle 7 "deleteUser" reqU2).2 = ⟨200, "ok"⟩ :=
  ⟨by decide,
    c8_delete_idempotence store2 [] meAdmin1 okOracle 7 reqU2 (by decide)⟩

/-! Claim C9. -/

/-- C9 as amended: in `src/index.js`, a cascading delete (authorized, with
the provider delete succeeding) returns ok, issues its deletes in batches of
at most 400, issues exactly the batches 400+400+100 when 900 schedule
records match `createdBy == uid`, and afterwards no schedule record with
`createdBy == uid` remains.  The part_004 adminHandler variant instead puts
every matching record into a single unbounded batch (see the
counterexample). -/
theorem c9_cascade_batching
    (s : Store) (actor : IndexJs.Actor) (oracle : AuthOracle) (d : IndexJs.DeleteData)
    (u : String) (target : UserProfile)
    (hu : IndexJs.requireString d.uid "uid" = .ok u)
    (ht : s.getUser u = some target)
    (hsc : IndexJs.assertOrgScope actor target.orgId = .ok ())
    (hcas : d.cascade = true)
    (hdel : oracle.deleteResult = none) :
    (IndexJs.handleDeleteUser s actor oracle d).2 = .ok () ∧
    (∀ b ∈ cascadeBatches (s.schedules.filter (fun x => x.createdBy == u)),
      b.length ≤ 400) ∧
    ((s.schedules.filter (fun x => x.createdBy == u)).length = 900 →
      (cascadeBatches (s.schedules.filter (fun x => x.createdBy == u))).map
        List.length = [400, 400, 100]) ∧
    ((IndexJs.handleDeleteUser s actor oracle d).1).schedules.all
      (fun x => !(x.createdBy == u)) = true := by
  have hrun : IndexJs.handleDeleteUser s actor oracle d =
      (⟨s.users.filter (fun kv => !(kv.1 == u)), s.departments,
        applyCascade s.schedules u⟩, .ok ()) := by
    simp [IndexJs.handleDeleteUser, step, hu, ht, hsc, hcas, hdel, Store.removeUser]
  refine ⟨by rw [hrun], ?_, ?_, ?_⟩
  · exact batchLoop_length_le _ [] 0 rfl (by omega)
  · intro h900
    unfold cascadeBatches
    rw [batchLoop_sizes _ [] 0 rfl, h900, sizesLoop_900]
  · rw [hrun]
    exact applyCascade_all s.schedules u

/-- Counterexample for C9: the part_004 adminHandler cascade
(`const batch = db.batch(); qs.forEach(d => batch.delete(d.ref));
await batch.commit()`) puts all matching records into one batch.  With 900
dependent records the single issued batch contains 900 deletes — not three
batches of 400/400/100, and far above the claimed 400-per-batch bound. -/
theorem c9_cascade_batching_counterexample :
    cascadeSingleBatch (mkSchedules 900 "u1") "u1" = mkSchedules 900 "u1" ∧
    (cascadeSingleBatch (mkSchedules 900 "u1") "u1").length = 900 ∧
    ¬((cascadeSingleBatch (mkSchedules 900 "u1") "u1").length ≤ 400) := by
  have h1 : cascadeSingleBatch (mkSchedules 900 "u1") "u1" = mkSchedules 900 "u1" := by
    unfold cascadeSingleBatch
    exact mkSchedules_filter 900 "u1"
  refine ⟨h1, ?_, ?_⟩
  · rw [h1]
    exact mkSchedules_length 900 "u1"
  · rw [h1, mkSchedules_length 900 "u1"]
    omega

/-- Witness for C9 at the claim's own scenario: deleting `u1` with
`cascade:true` over 900 dependent records returns ok, the issued batches have
sizes 400/400/100, and no record created by `u1` survives. -/
theorem c9_cascade_batching_witness :
    (IndexJs.handleDeleteUser store900 ⟨"root", JStr.str "superadmin", JStr.undef⟩
      okOracle ⟨JStr.str "u1", true⟩).2 = .ok () ∧
    (cascadeBatches (store900.schedules.filter (fun x => x.createdBy == "u1"))).map
      List.length = [400, 400, 100] ∧
    ((IndexJs.handleDeleteUser store900 ⟨"root", JStr.str "superadmin", JStr.undef⟩
      okOracle ⟨JStr.str "u1", true⟩).1).schedules.all
      (fun x => !(x.createdBy == "u1")) = true :=
  ⟨(c9_cascade_batching store900 ⟨"root", JStr.str "superadmin", JStr.undef⟩
      okOracle ⟨JStr.str "u1", true⟩ "u1" { emptyProfile with orgId := JStr.str "org1" }
      (by decide) (by decide) (by decide) (by decide) (by decide)).1,
    (c9_cascade_batching store900 ⟨"root", JStr.str "superadmin", JStr.undef⟩
      okOracle ⟨JStr.str "u1", true⟩ "u1" { emptyProfile with orgId := JStr.str "org1" }
      (by decide) (by decide) (by decide) (by decide) (by decide)).2.2.1
      (by rw [show store900.schedules = mkSchedules 900 "u1" from rfl,
        mkSchedules_filter, mkSchedules_length]),
    (c9_cascade_batching store900 ⟨"root", JStr.str "superadmin", JStr.undef⟩
      okOracle ⟨JStr.str "u1", true⟩ "u1" { emptyProfile with orgId := JStr.str "org1" }
      (by decide) (by decide) (by decide) (by decide) (by decide)).2.2.2⟩

/-! Claim C10. -/

/-- C10: in `src/index.js`, `deleteUser` deletes the profile document and the
cascaded schedule records before calling the provider delete, which is not
guarded; so whenever the provider deletion fails, the action responds with
that error while the profile document is already gone (and, with cascade
requested, every dependent schedule record too) — the failed action does not
leave the state unchanged. -/
theorem c10_delete_ordering
    (s : Store) (actor : IndexJs.Actor) (oracle : AuthOracle) (d : IndexJs.DeleteData)
    (u : String) (target : UserProfile) (err : String)
    (hu : IndexJs.requireString d.uid "uid" = .ok u)
    (ht : s.getUser u = some target)
    (hsc : IndexJs.assertOrgScope actor target.orgId = .ok ())
    (hdel : oracle.deleteResult = some err) :
    (IndexJs.handleDeleteUser s actor oracle d).2 = .error ⟨none, err⟩ ∧
    ((IndexJs.handleDeleteUser s actor oracle d).1).getUser u = none ∧
    (d.cascade = true →
      ((IndexJs.handleDeleteUser s actor oracle d).1).schedules.all
        (fun x => !(x.createdBy == u)) = true) ∧
    (IndexJs.handleDeleteUser s actor oracle d).1 ≠ s := by
  cases hc : d.cascade with
  | true =>
    have hrun : IndexJs.handleDeleteUser s actor oracle d =
        (⟨s.users.filter (fun kv => !(kv.1 == u)), s.departments,
          applyCascade s.schedules u⟩, .error ⟨none, err⟩) := by
      simp [IndexJs.handleDeleteUser, step, hu, ht, hsc, hc, hdel, Store.removeUser]
    refine ⟨by rw [hrun], ?_, ?_, ?_⟩
    · rw [hrun]
      exact lookup_filter_ne s.users u
    · intro _
      rw [hrun]
      exact applyCascade_all s.schedules u
    · rw [hrun]
      intro h
      rw [← h] at ht
      have hnone := lookup_filter_ne s.users u
      rw [show (⟨s.users.filter (fun kv => !(kv.1 == u)), s.departments,
        applyCascade s.schedules u⟩ : Store).getUser u =
        (s.users.filter (fun kv => !(kv.1 == u))).lookup u from rfl] at ht
      rw [hnone] at ht
      exact Option.noConfusion ht
  | false =>
    have hrun : IndexJs.handleDeleteUser s actor oracle d =
        (⟨s.users.filter (fun kv => !(kv.1 == u)), s.departments,
          s.schedules⟩, .error ⟨none, err⟩) := by
      simp [IndexJs.handleDeleteUser, step, hu, ht, hsc, hc, hdel, Store.removeUser]
    refine ⟨by rw [hrun], ?_, ?_, ?_⟩
    · rw [hrun]
      exact lookup_filter_ne s.users u
    · intro hx
      exact Bool.noConfusion hx
    · rw [hrun]
      intro h
      rw [← h] at ht
      have hnone := lookup_filter_ne s.users u
      rw [show (⟨s.users.filter (fun kv => !(kv.1 == u)), s.departments,
        s.schedules⟩ : Store).getUser u =
        (s.users.filter (fun kv => !(kv.1 == u))).lookup u from rfl] at ht
      rw [hnone] at ht
      exact Option.noConfusion ht

/-- Witness for C10: deleting `u2` (with cascade) while the provider delete
fails surfaces the provider error, yet the profile document is gone and the
final state differs from the initial one. -/
theorem c10_delete_ordering_witness :
    (IndexJs.handleDeleteUser store2 ⟨"root", JStr.str "superadmin", JStr.undef⟩
      failOracle ⟨JStr.str "u2", true⟩).2 = .error ⟨none, "provider-down"⟩ ∧
    ((IndexJs.handleDeleteUser store2 ⟨"root", JStr.str "superadmin", JStr.undef⟩
      failOracle ⟨JStr.str "u2", true⟩).1).getUser "u2" = none ∧
    (IndexJs.handleDeleteUser store2 ⟨"root", JStr.str "superadmin", JStr.undef⟩
      failOracle ⟨JStr.str "u2", true⟩).1 ≠ store2 :=
  ⟨(c10_delete_ordering store2 ⟨"root", JStr.str "superadmin", JStr.undef⟩
      failOracle ⟨JStr.str "u2", true⟩ "u2" prof2 "provider-down"
      (by decide) (by decide) (by decide) (by decide)).1,
    (c10_delete_ordering store2 ⟨"root", JStr.str "superadmin", JStr.undef⟩
      failOracle ⟨JStr.str "u2", true⟩ "u2" prof2 "provider-down"
      (by decide) (by decide) (by decide) (by decide)).2.1,
    (c10_delete_ordering store2 ⟨"root", JStr.str "superadmin", JStr.undef⟩
      failOracle ⟨JStr.str "u2", true⟩ "u2" prof2 "provider-down"
      (by decide) (by decide) (by decide) (by decide)).2.2.2⟩
